import Mathlib

/-!
Verification development for the JSONformer extension
(`extensions/jsonformer/script.py`): a schema-constrained incremental text
generator driving a black-box language-model oracle.

Modelling conventions of this shallow embedding:

* Python dicts parsed from JSON are modelled by the inductive `JVal`
  (association lists with unique keys; lookup takes the first binding,
  which coincides with Python dict lookup since JSON objects in this
  program have distinct keys).
* The generation oracle (`generation_func`) is a function from a prompt and
  generation settings to the finite list of cumulative response snapshots
  it would stream for that call.
* Python floats are represented by `PyFloat` over the rationals: every
  numeric literal the claims exercise is exactly representable, and the
  temperature arithmetic (multiplication by 1.3) is tracked exactly in ℚ.
  `pyFloatRepr` matches Python's `str(float)` on integral values (the only
  values the claims inspect); for non-integral values it emits a plain
  decimal expansion as an abstraction of Python's shortest-round-trip repr.
* Exceptions are modelled by `PyResult`; Python state mutation survives an
  exception, so every engine function returns its final state alongside
  either a value or an error, mirroring the instance-attribute mutation of
  `self.progress` / `self.indent`.
* The module-wide `shared.stop_everything` flag is modelled as a boolean
  history `stopHist : Nat → Bool` indexed by the total number of oracle
  snapshots consumed so far (a session-global clock carried in the state):
  the source reads the flag only at specific program points and that clock
  is the only notion of time the engine observes.
* The three stopping regexes and the array-emptiness regex are embedded as
  executable functions implementing Python `re.match` semantics (anchored
  at the start, greedy with backtracking, `.` not matching a newline,
  group 1 capture) for exactly those four patterns; every call site in the
  source passes `regex_return_group=1` alongside a pattern.
* Generator methods (`yield` of buffer snapshots) are modelled by their
  state effect: the engine appends to the buffer exactly as the source
  does, and the snapshot stream a caller would see is the trace of
  `progress` values.  The per-snapshot cancellation break in `__call__` is
  not modelled; claims about cancellation are settled at the level of the
  functions that read the flag.
* `generate_array` returns the number of elements it generated. This value
  is specification-only instrumentation (the Python method communicates
  through `self.progress` alone); it influences no state.
* The state field `calls` is a specification-only log of every oracle
  invocation (prompt and settings); it influences no behaviour.
-/

/-- JSON values as parsed by `json.loads`: the schema documents and the
nested dictionaries the engine walks. -/
inductive JVal where
  | str (s : String)
  | num (q : ℚ)
  | boolean (b : Bool)
  | null
  | arr (xs : List JVal)
  | obj (kvs : List (String × JVal))

/-- Lookup in an association list (Python dict indexing; keys are unique). -/
def assocFind : List (String × JVal) → String → Option JVal
  | [], _ => none
  | (k, w) :: rest, key => if k = key then some w else assocFind rest key

theorem assocFind_sizeOf (l : List (String × JVal)) (key : String) (w : JVal)
    (h : assocFind l key = some w) : sizeOf w < sizeOf l := by
  induction l with
  | nil => simp [assocFind] at h
  | cons hd tl ih =>
    obtain ⟨k, v⟩ := hd
    by_cases hk : k = key
    · simp [assocFind, hk] at h
      subst h
      simp
      omega
    · simp [assocFind, hk] at h
      have := ih h
      simp
      omega

/-- Python `schema[key]` restricted to dict receivers: `none` covers both a
missing key (KeyError) and a non-dict receiver (TypeError). -/
def pyDictGet (v : JVal) (key : String) : Option JVal :=
  match v with
  | .obj kvs => assocFind kvs key
  | _ => none

theorem pyDictGet_sizeOf (v : JVal) (key : String) (w : JVal)
    (h : pyDictGet v key = some w) : sizeOf w < sizeOf v := by
  cases v <;> simp [pyDictGet] at h
  have := assocFind_sizeOf _ _ _ h
  simp
  omega

/-- Python `\s` for `str` patterns and `str.strip()`: unicode whitespace. -/
def isPySpace (c : Char) : Bool :=
  c = ' ' ∨ c = '\t' ∨ c = '\n' ∨ c = '\r' ∨ c = '\x0b' ∨ c = '\x0c' ∨
  c = '\x1c' ∨ c = '\x1d' ∨ c = '\x1e' ∨ c = '\x1f' ∨ c = '\x85' ∨ c = '\xa0' ∨
  c = ' ' ∨ (' ' ≤ c ∧ c ≤ ' ') ∨ c = ' ' ∨ c = ' ' ∨
  c = ' ' ∨ c = ' ' ∨ c = '　'

def isAsciiDigit (c : Char) : Bool := '0' ≤ c ∧ c ≤ '9'

/-- Length of the maximal leading run of characters satisfying `p`. -/
def countLeadingWhile (p : Char → Bool) : List Char → Nat
  | [] => 0
  | c :: rest => if p c then countLeadingWhile p rest + 1 else 0

/-- Largest `k < n` with `p k`, the backtracking order of a greedy regex
prefix: longest candidate first. -/
def lastIdxSatisfying (p : Nat → Bool) : Nat → Option Nat
  | 0 => none
  | m + 1 => if p m then some m else lastIdxSatisfying p m

/-- Index of the first newline, or the length when there is none: a greedy
`.`-run can extend exactly this far. -/
def firstNlIdx : List Char → Nat
  | [] => 0
  | c :: rest => if c = '\n' then 0 else firstNlIdx rest + 1

/-- Character class `[,\s\]\}]` of the number stopping pattern. -/
def numTerm (c : Char) : Bool := c = ',' ∨ c = ']' ∨ c = '\x7d' ∨ isPySpace c

/-- Python `re.match(r'(.+)[,\s\]\}]', s)` as `(group 0, group 1)`: the
greedy dot-run is the longest newline-free prefix followed by a terminator
character. -/
def numMatch (s : String) : Option (String × String) :=
  let cs := s.toList
  let nl := firstNlIdx cs
  match lastIdxSatisfying (fun k => 1 ≤ k ∧ k ≤ nl ∧ numTerm (cs.getD k ' ')) cs.length with
  | some k => some (String.mk (cs.take (k + 1)), String.mk (cs.take k))
  | none => none

/-- Python `re.match(r'\s*(true|false|[01])', s)` as `(group 0, group 1)`. -/
def boolMatch (s : String) : Option (String × String) :=
  let cs := s.toList
  let w := countLeadingWhile isPySpace cs
  let rest := cs.drop w
  if rest.take 4 = ['t', 'r', 'u', 'e'] then
    some (String.mk (cs.take w ++ ['t', 'r', 'u', 'e']), "true")
  else if rest.take 5 = ['f', 'a', 'l', 's', 'e'] then
    some (String.mk (cs.take w ++ ['f', 'a', 'l', 's', 'e']), "false")
  else
    match rest with
    | c :: _ =>
      if c = '0' ∨ c = '1' then some (String.mk (cs.take w ++ [c]), String.mk [c]) else none
    | [] => none

/-- Python `re.match(r'(.*)(?<!\\)"', s)` as `(group 0, group 1)`: greedy
with backtracking, so the capture runs to the last quote (before any
newline) that is not preceded by a backslash. -/
def stringMatch (s : String) : Option (String × String) :=
  let cs := s.toList
  let nl := firstNlIdx cs
  match lastIdxSatisfying
      (fun k => k ≤ nl ∧ cs.getD k ' ' = '"' ∧ (k = 0 ∨ cs.getD (k - 1) ' ' ≠ '\\'))
      cs.length with
  | some k => some (String.mk (cs.take (k + 1)), String.mk (cs.take k))
  | none => none

/-- Python `re.match(r'\s*([^\s]\s*[^\s])', s)` as `(group 0, group 1)`:
captures the first two non-whitespace characters with the whitespace
between them. -/
def arrayEmptyMatch (s : String) : Option (String × String) :=
  let cs := s.toList
  let w := countLeadingWhile isPySpace cs
  match cs.drop w with
  | [] => none
  | c1 :: rest =>
    let w2 := countLeadingWhile isPySpace rest
    match rest.drop w2 with
    | [] => none
    | c2 :: _ =>
      let g := c1 :: (rest.take w2 ++ [c2])
      some (String.mk (cs.take w ++ g), String.mk g)

/-- Stopping patterns occurring in the source, one constructor per regex
literal. -/
inductive StopPat where
  | numberPat
  | booleanPat
  | stringPat
  | arrayEmptyPat
deriving DecidableEq

def matchGroup : StopPat → String → Option (String × String)
  | .numberPat => numMatch
  | .booleanPat => boolMatch
  | .stringPat => stringMatch
  | .arrayEmptyPat => arrayEmptyMatch

/-- Detection of the degenerate sequence `""`, Python
`re.search(r'""', response)`. -/
def hasDoubleQuotePair : List Char → Bool
  | '"' :: '"' :: _ => true
  | _ :: rest => hasDoubleQuotePair rest
  | [] => false

def strContainsDQ (s : String) : Bool := hasDoubleQuotePair s.toList

/-- Python float values as far as this program observes them. -/
inductive PyFloat where
  | fin (q : ℚ)
  | inf
  | ninf
  | nan
deriving DecidableEq

/-- Digit run of Python float syntax: digits with single underscores
strictly between digits. -/
def digitRunTail : List Char → Bool
  | [] => true
  | '_' :: rest =>
    match rest with
    | c :: rest2 => isAsciiDigit c && digitRunTail rest2
    | [] => false
  | c :: rest => isAsciiDigit c && digitRunTail rest

def digitRun : List Char → Bool
  | [] => false
  | c :: rest => isAsciiDigit c && digitRunTail rest

def digitsVal (cs : List Char) : Nat :=
  cs.foldl (fun acc c => if c = '_' then acc else acc * 10 + (c.toNat - 48)) 0

def digitsCount (cs : List Char) : Nat := (cs.filter (fun c => c ≠ '_')).length

/-- Python `float(s)`: strip whitespace, optional sign, then `inf`,
`infinity`, `nan` (case-insensitive) or a decimal literal with optional
fraction and exponent. Overflow of huge finite literals to `inf` is not
modelled (no claim exercises it). -/
def pyFloatParse (s : String) : Option PyFloat :=
  let cs := ((s.toList.dropWhile isPySpace).reverse.dropWhile isPySpace).reverse
  match cs with
  | [] => none
  | _ =>
    let sgnBody : Bool × List Char :=
      match cs with
      | '+' :: rest => (false, rest)
      | '-' :: rest => (true, rest)
      | _ => (false, cs)
    let sgn := sgnBody.1
    let body := sgnBody.2
    let lower := body.map Char.toLower
    if lower = ['i', 'n', 'f'] ∨ lower = ['i', 'n', 'f', 'i', 'n', 'i', 't', 'y'] then
      some (if sgn then .ninf else .inf)
    else if lower = ['n', 'a', 'n'] then
      some .nan
    else
      let mantExp := body.span (fun c => ¬(c = 'e' ∨ c = 'E'))
      let mant := mantExp.1
      let expRes : Option Int :=
        match mantExp.2 with
        | [] => some 0
        | _ :: expBody =>
          let esgnDigs : Bool × List Char :=
            match expBody with
            | '+' :: r => (false, r)
            | '-' :: r => (true, r)
            | _ => (false, expBody)
          if digitRun esgnDigs.2 then
            some (if esgnDigs.1 then -(digitsVal esgnDigs.2 : Int) else (digitsVal esgnDigs.2 : Int))
          else none
      match expRes with
      | none => none
      | some e =>
        let ipFrac := mant.span (fun c => c ≠ '.')
        let ip := ipFrac.1
        let mantOk : Option (Nat × Nat × Nat) :=
          match ipFrac.2 with
          | [] => if digitRun ip then some (digitsVal ip, 0, 0) else none
          | _ :: frac =>
            if (ip = [] ∨ digitRun ip) ∧ (frac = [] ∨ digitRun frac) ∧ ¬(ip = [] ∧ frac = []) then
              some (digitsVal ip, digitsVal frac, digitsCount frac)
            else none
        match mantOk with
        | none => none
        | some (ipv, fv, fl) =>
          let mag : ℚ := ((ipv : ℚ) + (fv : ℚ) / ((10 : ℚ) ^ fl)) * ((10 : ℚ) ^ (e : ℤ))
          some (.fin (if sgn then -mag else mag))

/-- Decimal digits of a natural number (`fuel` bounds the recursion and is
always sufficient since `n / 10 < n` for `n > 0`). -/
def natDigits : Nat → Nat → List Char
  | 0, _ => []
  | fuel + 1, n =>
    if n = 0 then [] else natDigits fuel (n / 10) ++ [Char.ofNat (48 + n % 10)]

def natRepr (n : Nat) : String := if n = 0 then "0" else String.mk (natDigits (n + 1) n)

def intRepr (i : Int) : String :=
  if i < 0 then "-" ++ natRepr i.natAbs else natRepr i.natAbs

/-- Fractional digits of `rem / den`, up to `steps` digits, dropping the
tail once the remainder vanishes. -/
def fracDigitList : Nat → Nat → Nat → List Char
  | 0, _, _ => []
  | steps + 1, rem, den =>
    if rem = 0 then []
    else Char.ofNat (48 + rem * 10 / den) :: fracDigitList steps (rem * 10 % den) den

/-- Plain decimal rendering of a non-integral rational; stands in for
Python's shortest-round-trip float repr on values no claim inspects. -/
def decimalApprox (q : ℚ) : String :=
  (if q < 0 then "-" else "") ++ natRepr (q.num.natAbs / q.den) ++ "." ++
    (let ds := fracDigitList 17 (q.num.natAbs % q.den) q.den
     if ds = [] then "0" else String.mk ds)

/-- Python `str(float)` as far as the engine prints it: integral values
render as `<int>.0`. -/
def pyFloatRepr (f : PyFloat) : String :=
  match f with
  | .inf => "inf"
  | .ninf => "-inf"
  | .nan => "nan"
  | .fin q => if q.den = 1 then intRepr q.num ++ ".0" else decimalApprox q

def hexDigitChar (n : Nat) : Char :=
  if n < 10 then Char.ofNat (48 + n) else Char.ofNat (87 + n)

def uEscape (n : Nat) : List Char :=
  ['\\', 'u', hexDigitChar (n / 4096 % 16), hexDigitChar (n / 256 % 16),
   hexDigitChar (n / 16 % 16), hexDigitChar (n % 16)]

/-- JSON string escaping as `json.dumps` performs it (`ensure_ascii`). -/
def jsonEscapeChar (c : Char) : List Char :=
  if c = '"' then ['\\', '"']
  else if c = '\\' then ['\\', '\\']
  else if c = '\n' then ['\\', 'n']
  else if c = '\r' then ['\\', 'r']
  else if c = '\t' then ['\\', 't']
  else if c = '\x08' then ['\\', 'b']
  else if c = '\x0c' then ['\\', 'f']
  else if c.toNat < 32 ∨ 126 < c.toNat then
    if c.toNat < 65536 then uEscape c.toNat
    else uEscape (55296 + (c.toNat - 65536) / 1024) ++ uEscape (56320 + (c.toNat - 65536) % 1024)
  else [c]

def jsonEscape (s : String) : String := String.mk ((s.toList.map jsonEscapeChar).flatten)

/- Python `json.dumps` with default separators, used for the guided prompt
and the validator's error messages. -/
mutual

/-- Serialisation of a `JVal` as `json.dumps` renders it. -/
def dumps (v : JVal) : String :=
  match v with
  | .str s => "\"" ++ jsonEscape s ++ "\""
  | .num q => if q.den = 1 then intRepr q.num else decimalApprox q
  | .boolean b => if b then "true" else "false"
  | .null => "null"
  | .arr xs => "[" ++ dumpsArr xs ++ "]"
  | .obj kvs => "\x7b" ++ dumpsObj kvs ++ "\x7d"
termination_by sizeOf v
decreasing_by
  all_goals simp
  all_goals omega

def dumpsArr (xs : List JVal) : String :=
  match xs with
  | [] => ""
  | [x] => dumps x
  | x :: rest => dumps x ++ ", " ++ dumpsArr rest
termination_by sizeOf xs
decreasing_by
  all_goals simp
  all_goals omega

def dumpsObj (kvs : List (String × JVal)) : String :=
  match kvs with
  | [] => ""
  | [(k, v)] => "\"" ++ jsonEscape k ++ "\": " ++ dumps v
  | (k, v) :: rest => "\"" ++ jsonEscape k ++ "\": " ++ dumps v ++ ", " ++ dumpsObj rest
termination_by sizeOf kvs
decreasing_by
  all_goals simp
  all_goals omega

end

def jvalIsStr (v : JVal) (s : String) : Bool :=
  match v with
  | .str x => x = s
  | _ => false

/-- Python str() of a schema's `type` value as interpolated into error
f-strings: a string value prints bare. No claim exercises the message text
for non-string type values, where str() and json.dumps differ only in
quote style. -/
def pyStr (v : JVal) : String :=
  match v with
  | .str s => s
  | _ => dumps v

/- Jsonformer.validate_schema. -/
mutual

/-- Recursive shape check over a parsed schema document, faithful to the
source's `if`/`elif` chain in `Jsonformer.validate_schema`. -/
def validate_schema (schema : JVal) : Except String Unit :=
  match schema with
  | .obj kvs =>
    (match assocFind kvs "type" with
     | none => .error ("Missing `type` field in object: " ++ dumps schema)
     | some t =>
       if jvalIsStr t "object" then
         match h : assocFind kvs "properties" with
         | none => .error ("Missing `properties` field in object: " ++ dumps schema)
         | some props =>
           match props with
           | .obj pkvs => validateProps pkvs
           | _ => .error ("Value of `properties` field must be an object in " ++ dumps schema)
       else if jvalIsStr t "array" then
         match h : assocFind kvs "items" with
         | none => .error ("Missing `items` field in array: " ++ dumps schema)
         | some items => validate_schema items
       else if jvalIsStr t "string" ∨ jvalIsStr t "number" ∨ jvalIsStr t "boolean" then
         .ok ()
       else .error ("Invalid `type` value `" ++ pyStr t ++ "` in object: " ++ dumps schema))
  | _ => .error ("Expected a schema object, but got " ++ dumps schema)
termination_by sizeOf schema
decreasing_by
  · have h1 := assocFind_sizeOf _ _ _ h
    simp at h1 ⊢
    omega
  · have h1 := assocFind_sizeOf _ _ _ h
    simp at h1 ⊢
    omega

def validateProps (l : List (String × JVal)) : Except String Unit :=
  match l with
  | [] => .ok ()
  | (_, v) :: rest =>
    match validate_schema v with
    | .ok () => validateProps rest
    | .error e => .error e
termination_by sizeOf l
decreasing_by
  all_goals simp
  all_goals omega

end

/-- Python exception kinds observable in this program. -/
inductive PyErr where
  | valueError (msg : String)
  | keyError
  | typeError
  | attributeError
  | indexError
  | unboundLocal
deriving DecidableEq

def isValueError : PyErr → Bool
  | .valueError _ => true
  | _ => false

/-- Result of a Python call: a value, or a propagating exception. -/
inductive PyResult (α : Type) where
  | ok (a : α)
  | err (e : PyErr)
deriving DecidableEq

/-- Generation settings dictionary passed to the oracle. -/
structure GenSettings where
  temperature : ℚ
  max_new_tokens : Option Nat
deriving DecidableEq

/-- Specification-only record of one oracle invocation. -/
structure CallRec where
  prompt : String
  settings : GenSettings
deriving DecidableEq

/-- Mutable session state: the output buffer and indentation counter of the
Jsonformer instance, plus the snapshot clock and the ghost call log. -/
structure St where
  progress : String
  indent : Int
  clock : Nat
  calls : List CallRec
deriving DecidableEq

/-- Immutable configuration of one Jsonformer instance, together with the
oracle and the cancellation-flag history of the run. -/
structure Cfg where
  prompt : String
  json_schema : JVal
  temperature : ℚ
  manual_prompt : Bool
  max_array_length : Nat
  oracle : String → GenSettings → List String
  stopHist : Nat → Bool

/-- Python `' ' * indent` (an empty string when the count is negative). -/
def indentSpaces (n : Int) : String := String.mk (List.replicate n.toNat ' ')

def add_to_progress (s : String) (st : St) : St := { st with progress := st.progress ++ s }

def apply_indent (st : St) : St := add_to_progress (indentSpaces st.indent) st

def increase_indent (st : St) : St := { st with indent := st.indent + 4 }

def decrease_indent (st : St) : St := { st with indent := st.indent - 4 }

def apply_newline (st : St) : St := add_to_progress "\n" st

def apply_key (key : String) (st : St) : St :=
  add_to_progress ("\"" ++ key ++ "\": ") (apply_indent st)

/-- Jsonformer.get_prompt: manual mode appends the buffer to the
instruction; guided mode additionally serialises the schema with fixed
guidance text. -/
def get_prompt (cfg : Cfg) (st : St) : String :=
  if cfg.manual_prompt then cfg.prompt ++ "\n" ++ st.progress
  else
    cfg.prompt ++ "\nOutput result in the following JSON schema format:\n" ++
      dumps cfg.json_schema ++
      "\nConsider carefully when to populate arrays and when to leave them empty. Remember empty arrays are often appropriate based on the request.\nResult: " ++
      st.progress

/-- Python `prompt_override or self.get_prompt()`: an empty override is
falsy and falls back to the built prompt. -/
def resolvePrompt (cfg : Cfg) (prompt_override : Option String) (st : St) : String :=
  match prompt_override with
  | some p => if p = "" then get_prompt cfg st else p
  | none => get_prompt cfg st

/-- Outcome of consuming the oracle's snapshot stream: an early return or
raise after some consumed snapshots, or exhaustion remembering the last
snapshot (the loop variable `response` after the `for`). -/
inductive ScanRes where
  | hit (res : PyResult String) (consumed : Nat)
  | ended (lastSnap : Option String)
deriving DecidableEq

/-- Per-snapshot loop of `get_next_tokens`: raise on a `""` sequence, else
return the requested capture group on a stopping-pattern match. -/
def streamScan (pat : Option StopPat) (grp : Nat) : List String → Nat → Option String → ScanRes
  | [], _, last => .ended last
  | r :: rs, n, _ =>
    if strContainsDQ r then
      .hit (.err (.valueError "Detected the sequence \"\"\" in the response")) (n + 1)
    else
      match pat with
      | some p =>
        match matchGroup p r with
        | some g => .hit (.ok (if grp = 0 then g.1 else g.2)) (n + 1)
        | none => streamScan pat grp rs (n + 1) (some r)
      | none => streamScan pat grp rs (n + 1) (some r)

/-- Jsonformer.get_next_tokens: build the prompt, stream the oracle,
truncate at the stopping pattern; after exhaustion, consult the
cancellation flag, then fail if a pattern was required, else return the
final cumulative response (unbound when the stream was empty). -/
def get_next_tokens (cfg : Cfg) (generation_settings : GenSettings)
    (stopping_regex : Option StopPat) (regex_return_group : Nat)
    (prompt_override : Option String) (st : St) : PyResult String × St :=
  let prompt := resolvePrompt cfg prompt_override st
  let snaps := cfg.oracle prompt generation_settings
  let stC : St := { st with calls := st.calls ++ [⟨prompt, generation_settings⟩] }
  match streamScan stopping_regex regex_return_group snaps 0 none with
  | .hit res k => (res, { stC with clock := st.clock + k })
  | .ended lastSnap =>
    let st2 : St := { stC with clock := st.clock + snaps.length }
    if cfg.stopHist (st.clock + snaps.length) then (.ok "", st2)
    else
      match stopping_regex with
      | some _ =>
        (.err (.valueError "Failed to find match for stopping regex before end of response"), st2)
      | none =>
        match lastSnap with
        | some r => (.ok r, st2)
        | none => (.err .unboundLocal, st2)

/-- Python `x or y` on an optional float: `None` and `0.0` are falsy. -/
def pyOrQ (t : Option ℚ) (d : ℚ) : ℚ :=
  match t with
  | none => d
  | some x => if x = 0 then d else x

/-- Return value of `generate_number`: a float, or the `''` returned on
cooperative cancellation. -/
inductive NumRet where
  | val (f : PyFloat)
  | cancelled
deriving DecidableEq

/-- Return value of `generate_boolean`: a bool, or the `''` returned on
cooperative cancellation. -/
inductive BoolRet where
  | val (b : Bool)
  | cancelled
deriving DecidableEq

/-- Jsonformer.generate_number: acquisition errors propagate (the `try`
wraps only `float(response)`); parse failures retry while
`iterations <= 3` with the temperature escalated by 1.3. -/
def generate_number (cfg : Cfg) (temperature : Option ℚ) (iterations : Nat) (st : St) :
    PyResult NumRet × St :=
  let settings : GenSettings := ⟨pyOrQ temperature cfg.temperature, none⟩
  match get_next_tokens cfg settings (some .numberPat) 1 none st with
  | (.ok response, st1) =>
    match pyFloatParse response with
    | some f => (.ok (.val f), st1)
    | none =>
      if cfg.stopHist st1.clock then (.ok .cancelled, st1)
      else if iterations > 3 then (.err (.valueError "Failed to generate a valid number"), st1)
      else generate_number cfg (some (pyOrQ temperature cfg.temperature * (13 / 10)))
        (iterations + 1) st1
  | (.err e, st1) => (.err e, st1)
termination_by 4 - iterations
decreasing_by omega

/-- Jsonformer.generate_boolean: maps `true`/`1` and `false`/`0` captures;
retries while `iterations <= 3` on a failed acquisition or an unmatched
capture, and degrades to `False` beyond that. -/
def generate_boolean (cfg : Cfg) (temperature : Option ℚ) (iterations : Nat) (st : St) :
    PyResult BoolRet × St :=
  let settings : GenSettings := ⟨pyOrQ temperature cfg.temperature, some 6⟩
  match get_next_tokens cfg settings (some .booleanPat) 1 none st with
  | (.ok response, st1) =>
    if response = "true" ∨ response = "1" then (.ok (.val true), st1)
    else if response = "false" ∨ response = "0" then (.ok (.val false), st1)
    else if iterations ≤ 3 then
      generate_boolean cfg (some (pyOrQ temperature cfg.temperature * (13 / 10)))
        (iterations + 1) st1
    else (.ok (.val false), st1)
  | (.err e, st1) =>
    if isValueError e then
      if cfg.stopHist st1.clock then (.ok .cancelled, st1)
      else if iterations ≤ 3 then
        generate_boolean cfg (some (pyOrQ temperature cfg.temperature * (13 / 10)))
          (iterations + 1) st1
      else (.ok (.val false), st1)
    else (.err e, st1)
termination_by 4 - iterations
decreasing_by
  all_goals omega

/-- Jsonformer.generate_string: retries while `iterations < 2` (the
escalated temperature is computed as `temperature or self.temperature*1.3`,
so it escalates only when no explicit temperature was passed), then returns
a single double-quote character while `iterations < 4`, else re-raises. -/
def generate_string (cfg : Cfg) (temperature : Option ℚ) (iterations : Nat) (st : St) :
    PyResult String × St :=
  let settings : GenSettings := ⟨pyOrQ temperature cfg.temperature, none⟩
  match get_next_tokens cfg settings (some .stringPat) 1 none st with
  | (.ok response, st1) => (.ok response, st1)
  | (.err e, st1) =>
    if isValueError e then
      if cfg.stopHist st1.clock then (.ok "", st1)
      else if iterations < 2 then
        generate_string cfg (some (pyOrQ temperature (cfg.temperature * (13 / 10))))
          (iterations + 1) st1
      else if iterations < 4 then (.ok "\"", st1)
      else (.err e, st1)
    else (.err e, st1)
termination_by 2 - iterations
decreasing_by omega

/-- Rendering used by generate_value on the number branch:
`str(self.generate_number())`, where cancellation returned `''`. -/
def numRetStr : NumRet → String
  | .val f => pyFloatRepr f
  | .cancelled => ""

/-- Rendering used by generate_value on the boolean branch:
`str(self.generate_boolean()).lower()`. -/
def boolRetStr : BoolRet → String
  | .val true => "true"
  | .val false => "false"
  | .cancelled => ""

/-- Python `s.rstrip('"}')` as used by the array continuation probe:
drop every trailing double quote or closing brace. -/
def rstripQuoteBrace (s : String) : String :=
  String.mk ((s.toList.reverse.dropWhile (fun c => c = '"' ∨ c = '\x7d')).reverse)

/-- Key-prefix emission at the top of generate_value: `if key:` (Python,
so an empty-string key is falsy and emits nothing). -/
def applyKeyOpt (key : Option String) (st : St) : St :=
  match key with
  | some k => if k = "" then st else apply_key k st
  | none => st

/- Jsonformer's mutually recursive composite generators. -/
mutual

/-- Jsonformer.generate_value: read `schema["type"]`, emit the key prefix
(skipped for a falsy empty key, as `if key:` does), then dispatch on the
declared type; an unsupported type raises at generation time. -/
def generate_value (cfg : Cfg) (schema : JVal) (key : Option String) (st : St) :
    PyResult Unit × St :=
  match pyDictGet schema "type" with
  | none => (.err .keyError, st)
  | some t =>
    let st0 : St := applyKeyOpt key st
    if jvalIsStr t "number" then
      match generate_number cfg none 0 st0 with
      | (.ok n, st1) => (.ok (), add_to_progress (numRetStr n) st1)
      | (.err e, st1) => (.err e, st1)
    else if jvalIsStr t "boolean" then
      match generate_boolean cfg none 0 st0 with
      | (.ok b, st1) => (.ok (), add_to_progress (boolRetStr b) st1)
      | (.err e, st1) => (.err e, st1)
    else if jvalIsStr t "string" then
      match generate_string cfg none 0 (add_to_progress "\"" st0) with
      | (.ok s, st1) => (.ok (), add_to_progress "\"" (add_to_progress s st1))
      | (.err e, st1) => (.err e, st1)
    else if jvalIsStr t "array" then
      match (pyDictGet schema "items").attach with
      | none => (.err .keyError, st0)
      | some ⟨items, hitems⟩ =>
        match generate_array cfg items st0 with
        | (.ok _, st1) => (.ok (), st1)
        | (.err e, st1) => (.err e, st1)
    else if jvalIsStr t "object" then
      match (pyDictGet schema "properties").attach with
      | none => (.err .keyError, st0)
      | some ⟨props, hprops⟩ => generate_object cfg props st0
    else (.err (.valueError ("Unsupported schema type: " ++ pyStr t)), st0)
termination_by (sizeOf schema, 0, 0)
decreasing_by
  · exact Prod.Lex.left _ _ (pyDictGet_sizeOf _ _ _ hitems)
  · exact Prod.Lex.left _ _ (pyDictGet_sizeOf _ _ _ hprops)

/-- Jsonformer.generate_object: emit `{`, close immediately when the
properties mapping is empty, else indent and emit the properties in
declaration order before restoring the indent and closing. -/
def generate_object (cfg : Cfg) (properties : JVal) (st : St) : PyResult Unit × St :=
  let stA := add_to_progress "\x7b" st
  match properties with
  | .obj kvs =>
    if kvs.isEmpty then (.ok (), add_to_progress "\x7d" stA)
    else
      match objLoop cfg kvs (increase_indent stA) with
      | (.ok _, st1) =>
        (.ok (), add_to_progress "\x7d" (apply_indent (decrease_indent (apply_newline st1))))
      | (.err e, st1) => (.err e, st1)
  | _ => (.err .attributeError, stA)
termination_by (sizeOf properties, 2, 0)
decreasing_by
  all_goals (apply Prod.Lex.left; simp <;> omega)

/-- Loop body of generate_object over `properties.items()`: newline, the
keyed value, and a comma after every property except the last. -/
def objLoop (cfg : Cfg) (l : List (String × JVal)) (st : St) : PyResult Unit × St :=
  match l with
  | [] => (.ok (), st)
  | [(k, sch)] => generate_value cfg sch (some k) (apply_newline st)
  | (k, sch) :: rest =>
    match generate_value cfg sch (some k) (apply_newline st) with
    | (.ok _, st1) => objLoop cfg rest (add_to_progress "," st1)
    | (.err e, st1) => (.err e, st1)
termination_by (sizeOf l, 1, 0)
decreasing_by
  all_goals (apply Prod.Lex.left; simp <;> omega)

/-- Jsonformer.generate_array: probe for emptiness (indexing the captured
text's last character), emit `[]` on a `]` verdict, else commit to a first
element and run the bounded continuation loop before closing. Returns the
number of elements generated (specification-only). -/
def generate_array (cfg : Cfg) (item_schema : JVal) (st : St) : PyResult Nat × St :=
  match get_next_tokens cfg ⟨cfg.temperature, some 6⟩ (some .arrayEmptyPat) 1 none st with
  | (.err e, st1) => (.err e, st1)
  | (.ok fnwc, st1) =>
    match fnwc.toList.getLast? with
    | none => (.err .indexError, st1)
    | some c =>
      if c = ']' then (.ok 0, add_to_progress "[]" st1)
      else
        let st2 := apply_indent (increase_indent (apply_newline (add_to_progress "[" st1)))
        match generate_value cfg item_schema none st2 with
        | (.err e, st3) => (.err e, st3)
        | (.ok _, st3) =>
          match arrayContinue cfg item_schema (cfg.max_array_length - 1) 1 st3 with
          | (.err e, st4) => (.err e, st4)
          | (.ok n, st4) =>
            (.ok n, add_to_progress "]" (apply_indent (decrease_indent (apply_newline st4))))
termination_by (sizeOf item_schema, 3, 0)
decreasing_by
  all_goals (apply Prod.Lex.right; apply Prod.Lex.left; omega)

/-- Continuation loop of generate_array (`for _ in range(max_array_length
- 1)`): probe the oracle against the prompt with trailing quotes and
closing braces stripped, and commit to one more element exactly when a
comma occurs among the first 3 characters of the probe's text. -/
def arrayContinue (cfg : Cfg) (item_schema : JVal) (k : Nat) (count : Nat) (st : St) :
    PyResult Nat × St :=
  match k with
  | 0 => (.ok count, st)
  | k' + 1 =>
    match get_next_tokens cfg ⟨cfg.temperature, some 3⟩ none 0
        (some (rstripQuoteBrace (get_prompt cfg st))) st with
    | (.err e, st1) => (.err e, st1)
    | (.ok next_tokens, st1) =>
      if (next_tokens.toList.take 3).contains ',' then
        let st2 := apply_indent (apply_newline (add_to_progress "," st1))
        match generate_value cfg item_schema none st2 with
        | (.err e, st3) => (.err e, st3)
        | (.ok _, st3) => arrayContinue cfg item_schema k' (count + 1) st3
      else (.ok count, st1)
termination_by (sizeOf item_schema, 1, k)
decreasing_by
  all_goals first
    | (apply Prod.Lex.right; apply Prod.Lex.left; omega)
    | (apply Prod.Lex.right; apply Prod.Lex.right; omega)

end

/-- Jsonformer.__call__: reset the buffer and the indent counter, then
generate from the schema root. The caller-visible snapshot stream is the
trace of `progress` values; the final state's `progress` is the session's
final buffer. -/
def jsonformer_run (cfg : Cfg) : PyResult Unit × St :=
  generate_value cfg cfg.json_schema none ⟨"", 0, 0, []⟩

/-- Nested `wrapped_generate_func` of custom_generate_reply: merge the
temperature, and the max_new_tokens when set, over the webui state before
calling the underlying generation function (modelled as a function of the
prompt, the effective temperature and the effective max_new_tokens). -/
def wrapped_generate_func (base : String → ℚ → Nat → List String)
    (state_max_new_tokens : Nat) : String → GenSettings → List String :=
  fun wrapped_prompt generation_settings =>
    base wrapped_prompt generation_settings.temperature
      (generation_settings.max_new_tokens.getD state_max_new_tokens)

/-- Result of the generation entry point: the passthrough branch (plugin
disabled or no schema), or a full Jsonformer session. -/
inductive EntryResult where
  | passthrough
  | jsonformer (r : PyResult Unit × St)

/-- Relevant slice of custom_generate_reply, the engine's generation entry
point: when the plugin is enabled and a schema is present, it constructs a
Jsonformer over the wrapped generation function (max_array_length left at
its default of 10) and runs it. Seed locking and the json.loads of the
schema text are outside the model (no claim concerns them); the schema
argument stands for the already-parsed `state['json_schema']`. -/
def custom_generate_reply (base : String → ℚ → Nat → List String) (question : String)
    (state_temperature : ℚ) (state_max_new_tokens : Nat) (state_json_schema : Option JVal)
    (params_enabled : Bool) (params_manual_prompt : Bool) (stopHist : Nat → Bool) :
    EntryResult :=
  if ¬params_enabled ∨ state_json_schema.isNone then .passthrough
  else
    match state_json_schema with
    | none => .passthrough
    | some schema =>
      .jsonformer (jsonformer_run
        { prompt := question
          json_schema := schema
          temperature := state_temperature
          manual_prompt := params_manual_prompt
          max_array_length := 10
          oracle := wrapped_generate_func base state_max_new_tokens
          stopHist := stopHist })

/-- Cancellation-flag history that is never set. -/
def neverStop : Nat → Bool := fun _ => false

/-- Cancellation-flag history that is always set. -/
def alwaysStop : Nat → Bool := fun _ => true

/-- Suffix test on strings via character lists. -/
def strEndsWith (s suffix : String) : Bool :=
  s.toList.drop (s.toList.length - suffix.toList.length) = suffix.toList

/-- Schema of the end-to-end example: object with a string `name` and a
number `age`. -/
def schemaC1 : JVal :=
  .obj [("type", .str "object"),
        ("properties", .obj [("name", .obj [("type", .str "string")]),
                             ("age", .obj [("type", .str "number")])])]

/-- Oracle scripted to answer the `name` slot with `Ann` and the `age`
slot with `30`: it keys on the buffer suffix visible in the prompt. -/
def oracleC1 : String → GenSettings → List String := fun p _ =>
  if strEndsWith p "\"name\": \"" then ["Ann\""]
  else if strEndsWith p "\"age\": " then ["30,"]
  else []

def cfgC1 : Cfg :=
  { prompt := "Describe Ann."
    json_schema := schemaC1
    temperature := 1
    manual_prompt := true
    max_array_length := 10
    oracle := oracleC1
    stopHist := neverStop }

/-- Value that get_next_tokens computes when the cancellation flag is never
observed true: the per-snapshot scan, then the end-of-stream outcome. -/
def acquireValue (pat : Option StopPat) (grp : Nat) (snaps : List String) : PyResult String :=
  match streamScan pat grp snaps 0 none with
  | .hit res _ => res
  | .ended lastSnap =>
    match pat with
    | some _ => .err (.valueError "Failed to find match for stopping regex before end of response")
    | none =>
      match lastSnap with
      | some r => .ok r
      | none => .err .unboundLocal

/-- Number of snapshots get_next_tokens consumes from a stream. -/
def consumedCount (pat : Option StopPat) (grp : Nat) (snaps : List String) : Nat :=
  match streamScan pat grp snaps 0 none with
  | .hit _ k => k
  | .ended _ => snaps.length


theorem c1_step_name :
    generate_value cfgC1 (.obj [("type", .str "string")]) (some "name") ⟨"\x7b\n", 4, 0, []⟩ =
    (.ok (), ⟨"\x7b\n    \"name\": \"Ann\"", 4, 1,
      [⟨"Describe Ann.\n\x7b\n    \"name\": \"", ⟨1, none⟩⟩]⟩) := by
  rw [generate_value.eq_def]
  simp only [pyDictGet, assocFind, jvalIsStr, applyKeyOpt, apply_key, apply_indent,
    indentSpaces, add_to_progress]
  norm_num
  rw [generate_string.eq_def]
  simp [get_next_tokens, resolvePrompt, get_prompt, cfgC1, oracleC1, strEndsWith,
    streamScan, strContainsDQ, hasDoubleQuotePair, matchGroup, stringMatch, lastIdxSatisfying,
    firstNlIdx, pyOrQ, neverStop, add_to_progress]

theorem c1_step_age :
    generate_value cfgC1 (.obj [("type", .str "number")]) (some "age")
      ⟨"\x7b\n    \"name\": \"Ann\",\n", 4, 1,
        [⟨"Describe Ann.\n\x7b\n    \"name\": \"", ⟨1, none⟩⟩]⟩ =
    (.ok (), ⟨"\x7b\n    \"name\": \"Ann\",\n    \"age\": 30.0", 4, 2,
      [⟨"Describe Ann.\n\x7b\n    \"name\": \"", ⟨1, none⟩⟩,
       ⟨"Describe Ann.\n\x7b\n    \"name\": \"Ann\",\n    \"age\": ", ⟨1, none⟩⟩]⟩) := by
  rw [generate_value.eq_def]
  simp only [pyDictGet, assocFind, jvalIsStr, applyKeyOpt, apply_key, apply_indent,
    indentSpaces, add_to_progress]
  norm_num
  rw [generate_number.eq_def]
  simp [get_next_tokens, resolvePrompt, get_prompt, cfgC1, oracleC1, strEndsWith,
    streamScan, strContainsDQ, hasDoubleQuotePair, matchGroup, numMatch, lastIdxSatisfying,
    firstNlIdx, numTerm, isPySpace, pyOrQ, neverStop, pyFloatParse, digitRun, digitRunTail,
    isAsciiDigit, digitsVal, digitsCount, numRetStr, pyFloatRepr, intRepr, natRepr, natDigits,
    add_to_progress]

set_option maxHeartbeats 1000000 in
theorem c1_step_loop :
    objLoop cfgC1 [("name", .obj [("type", .str "string")]), ("age", .obj [("type", .str "number")])]
      ⟨"\x7b", 4, 0, []⟩ =
    (.ok (), ⟨"\x7b\n    \"name\": \"Ann\",\n    \"age\": 30.0", 4, 2,
      [⟨"Describe Ann.\n\x7b\n    \"name\": \"", ⟨1, none⟩⟩,
       ⟨"Describe Ann.\n\x7b\n    \"name\": \"Ann\",\n    \"age\": ", ⟨1, none⟩⟩]⟩) := by
  rw [objLoop.eq_def]
  simp only [apply_newline, add_to_progress]
  simp
  rw [c1_step_name]
  simp
  rw [objLoop.eq_def]
  simp only [apply_newline, add_to_progress]
  simp
  rw [c1_step_age]

theorem c1_step_object :
    generate_object cfgC1
      (.obj [("name", .obj [("type", .str "string")]), ("age", .obj [("type", .str "number")])])
      ⟨"", 0, 0, []⟩ =
    (.ok (), ⟨"\x7b\n    \"name\": \"Ann\",\n    \"age\": 30.0\n\x7d", 0, 2,
      [⟨"Describe Ann.\n\x7b\n    \"name\": \"", ⟨1, none⟩⟩,
       ⟨"Describe Ann.\n\x7b\n    \"name\": \"Ann\",\n    \"age\": ", ⟨1, none⟩⟩]⟩) := by
  rw [generate_object.eq_def]
  rw [show (add_to_progress "\x7b" (⟨"", 0, 0, []⟩ : St)) = (⟨"\x7b", 0, 0, []⟩ : St) from rfl]
  simp
  rw [show (increase_indent (⟨"\x7b", 0, 0, []⟩ : St)) = (⟨"\x7b", 4, 0, []⟩ : St) from rfl]
  rw [c1_step_loop]
  simp [apply_newline, decrease_indent, apply_indent, indentSpaces, add_to_progress]

theorem c1_step_root :
    generate_value cfgC1 schemaC1 none ⟨"", 0, 0, []⟩ =
    generate_object cfgC1 (.obj [("name", .obj [("type", .str "string")]),
                                 ("age", .obj [("type", .str "number")])]) ⟨"", 0, 0, []⟩ := by
  rw [generate_value.eq_def]
  simp [schemaC1, pyDictGet, assocFind, jvalIsStr, applyKeyOpt]

/-- C1: for the schema with a string `name` and a number `age` and the
oracle scripted to answer the name slot with `Ann` and the age slot with
`30`, the session completes normally and its final buffer is exactly
`{` newline four-spaces `"name": "Ann",` newline four-spaces `"age": 30.0`
newline `}`. -/
theorem C1_end_to_end_example :
    (jsonformer_run cfgC1).1 = .ok () ∧
    (jsonformer_run cfgC1).2.progress =
      "\x7b\n    \"name\": \"Ann\",\n    \"age\": 30.0\n\x7d" := by
  have h0 : jsonformer_run cfgC1 = generate_value cfgC1 schemaC1 none ⟨"", 0, 0, []⟩ := rfl
  rw [h0, c1_step_root, c1_step_object]
  simp

theorem get_next_tokens_nostop (cfg : Cfg) (settings : GenSettings) (pat : Option StopPat)
    (grp : Nat) (ovr : Option String) (st : St)
    (hstop : ∀ n, cfg.stopHist n = false) :
    get_next_tokens cfg settings pat grp ovr st =
      (acquireValue pat grp (cfg.oracle (resolvePrompt cfg ovr st) settings),
       ⟨st.progress, st.indent,
        st.clock + consumedCount pat grp (cfg.oracle (resolvePrompt cfg ovr st) settings),
        st.calls ++ [⟨resolvePrompt cfg ovr st, settings⟩]⟩) := by
  unfold get_next_tokens acquireValue consumedCount
  dsimp only
  cases h : streamScan pat grp (cfg.oracle (resolvePrompt cfg ovr st) settings) 0 none with
  | hit res k => rfl
  | ended lastSnap =>
    simp only [hstop]
    cases pat with
    | some p => rfl
    | none => cases lastSnap <;> rfl

theorem get_next_tokens_state (cfg : Cfg) (settings : GenSettings) (pat : Option StopPat)
    (grp : Nat) (ovr : Option String) (st : St) :
    ((get_next_tokens cfg settings pat grp ovr st).2.progress = st.progress ∧
     (get_next_tokens cfg settings pat grp ovr st).2.indent = st.indent) ∧
    (get_next_tokens cfg settings pat grp ovr st).2.calls =
      st.calls ++ [⟨resolvePrompt cfg ovr st, settings⟩] := by
  unfold get_next_tokens
  dsimp only
  cases h : streamScan pat grp (cfg.oracle (resolvePrompt cfg ovr st) settings) 0 none with
  | hit res k => simp
  | ended lastSnap =>
    by_cases hs : cfg.stopHist (st.clock + (cfg.oracle (resolvePrompt cfg ovr st) settings).length)
    · simp [hs]
    · simp only [hs, Bool.false_eq_true, if_false]
      cases pat with
      | some p => simp
      | none => cases lastSnap <;> simp

theorem streamScan_ended (pat : Option StopPat) (grp : Nat) (snaps : List String)
    (h : ∀ r ∈ snaps, strContainsDQ r = false ∧ ∀ p, pat = some p → matchGroup p r = none) :
    ∀ n last, streamScan pat grp snaps n last =
      .ended (match snaps.getLast? with | some r => some r | none => last) := by
  induction snaps with
  | nil => intro n last; simp [streamScan]
  | cons r rs ih =>
    intro n last
    have hr := h r (by simp)
    have hrs : ∀ x ∈ rs, strContainsDQ x = false ∧ ∀ p, pat = some p → matchGroup p x = none :=
      fun x hx => h x (by simp [hx])
    simp only [streamScan, hr.1, Bool.false_eq_true, if_false]
    cases pat with
    | some p =>
      simp only [hr.2 p rfl]
      rw [ih hrs (n + 1) (some r)]
      cases rs with
      | nil => simp
      | cons a as =>
        cases hgl : (a :: as).getLast? with
        | some x => simp [hgl]
        | none =>
          rw [List.getLast?_eq_none_iff] at hgl
          cases hgl
    | none =>
      rw [ih hrs (n + 1) (some r)]
      cases rs with
      | nil => simp
      | cons a as =>
        cases hgl : (a :: as).getLast? with
        | some x => simp [hgl]
        | none =>
          rw [List.getLast?_eq_none_iff] at hgl
          cases hgl

theorem get_next_tokens_exhausted_stop (cfg : Cfg) (settings : GenSettings)
    (pat : Option StopPat) (grp : Nat) (ovr : Option String) (st : St)
    (h : ∀ r ∈ cfg.oracle (resolvePrompt cfg ovr st) settings,
      strContainsDQ r = false ∧ ∀ p, pat = some p → matchGroup p r = none)
    (hstop : cfg.stopHist
      (st.clock + (cfg.oracle (resolvePrompt cfg ovr st) settings).length) = true) :
    get_next_tokens cfg settings pat grp ovr st =
      (.ok "",
       ⟨st.progress, st.indent,
        st.clock + (cfg.oracle (resolvePrompt cfg ovr st) settings).length,
        st.calls ++ [⟨resolvePrompt cfg ovr st, settings⟩]⟩) := by
  unfold get_next_tokens
  dsimp only
  rw [streamScan_ended pat grp _ h 0 none]
  simp [hstop]

/-- Decidable form of a clean stream: no snapshot contains the `""`
sequence and none matches the stopping pattern. -/
def snapsClean (pat : Option StopPat) (snaps : List String) : Bool :=
  snaps.all (fun r =>
    !strContainsDQ r &&
      (match pat with
       | some p => (matchGroup p r).isNone
       | none => true))

theorem snapsClean_spec (pat : Option StopPat) (snaps : List String)
    (h : snapsClean pat snaps = true) :
    ∀ r ∈ snaps, strContainsDQ r = false ∧ ∀ p, pat = some p → matchGroup p r = none := by
  intro r hr
  have := (List.all_eq_true.mp h) r hr
  constructor
  · cases hdq : strContainsDQ r <;> simp [hdq] at this ⊢
  · intro p hp
    subst hp
    simp at this
    exact this.2

/-- Configuration whose oracle yields one snapshot matching the number
stopping pattern while the cancellation flag is set throughout. -/
def cfgC7 : Cfg :=
  { prompt := "p"
    json_schema := .null
    temperature := 1
    manual_prompt := true
    max_array_length := 10
    oracle := fun _ _ => ["ab,"]
    stopHist := alwaysStop }

/-- C7 counterexample: with the cancellation flag already true while the
stream is being consumed, the acquirer still consumes the snapshot and
returns the captured text instead of returning the empty string
immediately. -/
theorem C7_counterexample :
    get_next_tokens cfgC7 ⟨1, none⟩ (some .numberPat) 1 none ⟨"", 0, 0, []⟩ =
      (.ok "ab", ⟨"", 0, 1, [⟨"p\n", ⟨1, none⟩⟩]⟩) ∧
    ("ab" : String) ≠ "" := by
  exact ⟨rfl, by simp⟩

/-- C7 amended: the acquirer consults the cancellation flag only after the
oracle stream is exhausted without a protocol error or a stopping-pattern
match; when the flag is true at that point it returns the empty string
instead of raising. -/
theorem C7_amended_flag_checked_after_exhaustion (cfg : Cfg) (settings : GenSettings)
    (pat : Option StopPat) (grp : Nat) (ovr : Option String) (st : St)
    (h : snapsClean pat (cfg.oracle (resolvePrompt cfg ovr st) settings) = true)
    (hstop : cfg.stopHist
      (st.clock + (cfg.oracle (resolvePrompt cfg ovr st) settings).length) = true) :
    get_next_tokens cfg settings pat grp ovr st =
      (.ok "",
       ⟨st.progress, st.indent,
        st.clock + (cfg.oracle (resolvePrompt cfg ovr st) settings).length,
        st.calls ++ [⟨resolvePrompt cfg ovr st, settings⟩]⟩) :=
  get_next_tokens_exhausted_stop cfg settings pat grp ovr st
    (snapsClean_spec pat _ h) hstop

/-- Configuration whose oracle yields one non-matching snapshot while the
cancellation flag is set throughout. -/
def cfgStopNoMatch : Cfg :=
  { prompt := "p"
    json_schema := .null
    temperature := 1
    manual_prompt := true
    max_array_length := 10
    oracle := fun _ _ => ["x"]
    stopHist := alwaysStop }

theorem C7_amended_witness :
    snapsClean (some .numberPat)
      (cfgStopNoMatch.oracle (resolvePrompt cfgStopNoMatch none ⟨"", 0, 0, []⟩) ⟨1, none⟩) = true ∧
    cfgStopNoMatch.stopHist 1 = true ∧
    get_next_tokens cfgStopNoMatch ⟨1, none⟩ (some .numberPat) 1 none ⟨"", 0, 0, []⟩ =
      (.ok "", ⟨"", 0, 1, [⟨"p\n", ⟨1, none⟩⟩]⟩) := by
  refine ⟨by decide, rfl, ?_⟩
  exact C7_amended_flag_checked_after_exhaustion cfgStopNoMatch ⟨1, none⟩ (some .numberPat) 1
    none ⟨"", 0, 0, []⟩ (by decide) rfl

theorem generate_array_empty_probe_indexError (cfg : Cfg) (item : JVal) (st st1 : St)
    (h : get_next_tokens cfg ⟨cfg.temperature, some 6⟩ (some .arrayEmptyPat) 1 none st =
      (.ok "", st1)) :
    generate_array cfg item st = (.err .indexError, st1) := by
  rw [generate_array.eq_def, h]
  rfl

/-- C10: when the emptiness probe returns the empty string — which happens
exactly when its stream ends clean of protocol errors and matches while the
cancellation flag is set — generate_array indexes the last character of the
empty capture and raises IndexError instead of shutting down gracefully. -/
theorem C10_empty_probe_raises (cfg : Cfg) (item : JVal) (st st1 : St) :
    (get_next_tokens cfg ⟨cfg.temperature, some 6⟩ (some .arrayEmptyPat) 1 none st =
        (.ok "", st1) →
      generate_array cfg item st = (.err .indexError, st1)) ∧
    (snapsClean (some .arrayEmptyPat)
        (cfg.oracle (get_prompt cfg st) ⟨cfg.temperature, some 6⟩) = true →
      cfg.stopHist (st.clock +
        (cfg.oracle (get_prompt cfg st) ⟨cfg.temperature, some 6⟩).length) = true →
      get_next_tokens cfg ⟨cfg.temperature, some 6⟩ (some .arrayEmptyPat) 1 none st =
        (.ok "",
         ⟨st.progress, st.indent,
          st.clock + (cfg.oracle (get_prompt cfg st) ⟨cfg.temperature, some 6⟩).length,
          st.calls ++ [⟨get_prompt cfg st, ⟨cfg.temperature, some 6⟩⟩]⟩)) := by
  constructor
  · exact generate_array_empty_probe_indexError cfg item st st1
  · intro h hstop
    exact get_next_tokens_exhausted_stop cfg ⟨cfg.temperature, some 6⟩ (some .arrayEmptyPat) 1
      none st (snapsClean_spec _ _ h) hstop

theorem C10_witness :
    get_next_tokens cfgStopNoMatch ⟨1, some 6⟩ (some .arrayEmptyPat) 1 none ⟨"", 0, 0, []⟩ =
      (.ok "", ⟨"", 0, 1, [⟨"p\n", ⟨1, some 6⟩⟩]⟩) ∧
    generate_array cfgStopNoMatch .null ⟨"", 0, 0, []⟩ =
      (.err .indexError, ⟨"", 0, 1, [⟨"p\n", ⟨1, some 6⟩⟩]⟩) := by
  have h2 := (C10_empty_probe_raises cfgStopNoMatch .null ⟨"", 0, 0, []⟩
    ⟨"", 0, 1, [⟨"p\n", ⟨1, some 6⟩⟩]⟩).2 (by decide) rfl
  have h1 := (C10_empty_probe_raises cfgStopNoMatch .null ⟨"", 0, 0, []⟩
    ⟨"", 0, 1, [⟨"p\n", ⟨1, some 6⟩⟩]⟩).1 h2
  exact ⟨h2, h1⟩

theorem acquireValue_noMatch (p : StopPat) (grp : Nat) (snaps : List String)
    (h : ∀ r ∈ snaps, matchGroup p r = none) :
    ∃ m, acquireValue (some p) grp snaps = .err (.valueError m) := by
  unfold acquireValue
  suffices hs : ∀ n last, (∃ k m, streamScan (some p) grp snaps n last =
      .hit (.err (.valueError m)) k) ∨
      (∃ last2, streamScan (some p) grp snaps n last = .ended last2) by
    rcases hs 0 none with ⟨k, m, hm⟩ | ⟨last2, hm⟩
    · rw [hm]
      exact ⟨m, rfl⟩
    · rw [hm]
      exact ⟨_, rfl⟩
  induction snaps with
  | nil => intro n last; exact .inr ⟨last, rfl⟩
  | cons r rs ih =>
    intro n last
    have hr := h r (by simp)
    have hrs : ∀ x ∈ rs, matchGroup p x = none := fun x hx => h x (by simp [hx])
    rw [streamScan.eq_def]
    cases hdq : strContainsDQ r with
    | true =>
      exact .inl ⟨n + 1, "Detected the sequence \"\"\" in the response", by simp [hdq]⟩
    | false =>
      simp only [hdq, Bool.false_eq_true, if_false, hr]
      exact ih hrs (n + 1) (some r)

theorem generate_boolean_noise (cfg : Cfg)
    (hstop : ∀ n, cfg.stopHist n = false)
    (hnoise : ∀ p s, ∀ x ∈ cfg.oracle p s, matchGroup .booleanPat x = none) :
    ∀ n it temp st, 4 - it = n →
      (generate_boolean cfg temp it st).1 = .ok (.val false) ∧
      (generate_boolean cfg temp it st).2.calls.length = st.calls.length + (n + 1) := by
  intro n
  induction n with
  | zero =>
    intro it temp st hit
    rw [generate_boolean.eq_def]
    dsimp only
    rw [get_next_tokens_nostop cfg _ _ _ _ _ hstop]
    obtain ⟨m, hm⟩ := acquireValue_noMatch .booleanPat 1 _ (hnoise _ _)
    rw [hm]
    have hgt : ¬ it ≤ 3 := by omega
    simp [isValueError, hstop, hgt]
  | succ n ih =>
    intro it temp st hit
    rw [generate_boolean.eq_def]
    dsimp only
    rw [get_next_tokens_nostop cfg _ _ _ _ _ hstop]
    obtain ⟨m, hm⟩ := acquireValue_noMatch .booleanPat 1 _ (hnoise _ _)
    rw [hm]
    have hle : it ≤ 3 := by omega
    simp only [isValueError, hstop, Bool.false_eq_true, if_false, hle, if_true]
    refine ⟨(ih (it + 1) _ _ (by omega)).1, ?_⟩
    rw [(ih (it + 1) _ _ (by omega)).2]
    simp
    omega

/-- C6: a boolean acquisition capturing `true`/`1` yields `True` and one
capturing `false`/`0` yields `False`; and against an oracle whose output
never matches the boolean stopping pattern (with the cancellation flag
never set), generate_boolean returns `False` after its five acquisition
attempts instead of raising. -/
theorem C6_boolean_mapping_and_noise (cfg : Cfg) (st : St) (r : String) (st1 : St) :
    (get_next_tokens cfg ⟨cfg.temperature, some 6⟩ (some .booleanPat) 1 none st =
        (.ok r, st1) →
      ((r = "true" ∨ r = "1") → generate_boolean cfg none 0 st = (.ok (.val true), st1)) ∧
      ((r = "false" ∨ r = "0") → generate_boolean cfg none 0 st = (.ok (.val false), st1))) ∧
    ((∀ n, cfg.stopHist n = false) →
      (∀ p s, ∀ x ∈ cfg.oracle p s, matchGroup .booleanPat x = none) →
      (generate_boolean cfg none 0 st).1 = .ok (.val false) ∧
      (generate_boolean cfg none 0 st).2.calls.length = st.calls.length + 5) := by
  constructor
  · intro h
    constructor
    · intro hr
      rw [generate_boolean.eq_def]
      dsimp only
      simp only [pyOrQ]
      rw [h]
      rcases hr with rfl | rfl <;> simp
    · intro hr
      rw [generate_boolean.eq_def]
      dsimp only
      simp only [pyOrQ]
      rw [h]
      rcases hr with rfl | rfl <;> simp
  · intro hstop hnoise
    exact generate_boolean_noise cfg hstop hnoise 4 0 none st rfl

/-- Oracle answering the boolean slot with `true`. -/
def cfgBoolTrue : Cfg :=
  { prompt := "p"
    json_schema := .null
    temperature := 1
    manual_prompt := true
    max_array_length := 10
    oracle := fun _ _ => ["true"]
    stopHist := neverStop }

/-- Oracle that only ever returns noise never matching the boolean
stopping pattern. -/
def cfgBoolNoise : Cfg :=
  { prompt := "p"
    json_schema := .null
    temperature := 1
    manual_prompt := true
    max_array_length := 10
    oracle := fun _ _ => ["zzz"]
    stopHist := neverStop }

theorem C6_witness :
    generate_boolean cfgBoolTrue none 0 ⟨"", 0, 0, []⟩ =
      (.ok (.val true), ⟨"", 0, 1, [⟨"p\n", ⟨1, some 6⟩⟩]⟩) ∧
    (generate_boolean cfgBoolNoise none 0 ⟨"", 0, 0, []⟩).1 = .ok (.val false) ∧
    (generate_boolean cfgBoolNoise none 0 ⟨"", 0, 0, []⟩).2.calls.length = 5 := by
  have hnoise : ∀ p s, ∀ x ∈ cfgBoolNoise.oracle p s, matchGroup .booleanPat x = none := by
    intro p s x hx
    cases hx with
    | head => rfl
    | tail b h => cases h
  have h2 := (C6_boolean_mapping_and_noise cfgBoolNoise ⟨"", 0, 0, []⟩ "" ⟨"", 0, 0, []⟩).2
    (fun _ => rfl) hnoise
  refine ⟨?_, h2.1, by rw [h2.2]; rfl⟩
  exact ((C6_boolean_mapping_and_noise cfgBoolTrue ⟨"", 0, 0, []⟩ "true"
    ⟨"", 0, 1, [⟨"p\n", ⟨1, some 6⟩⟩]⟩).1 rfl).1 (Or.inl rfl)

theorem generate_string_failstep (cfg : Cfg) (st : St) (temp : Option ℚ) (it : Nat)
    (hstop : ∀ n, cfg.stopHist n = false)
    (hfail : ∀ p s, ∀ x ∈ cfg.oracle p s, matchGroup .stringPat x = none)
    (hlt : it < 2) :
    generate_string cfg temp it st =
      generate_string cfg (some (pyOrQ temp (cfg.temperature * (13 / 10)))) (it + 1)
        ⟨st.progress, st.indent,
         st.clock + consumedCount (some .stringPat) 1
           (cfg.oracle (resolvePrompt cfg none st) ⟨pyOrQ temp cfg.temperature, none⟩),
         st.calls ++ [⟨resolvePrompt cfg none st, ⟨pyOrQ temp cfg.temperature, none⟩⟩]⟩ := by
  conv_lhs => rw [generate_string.eq_def]
  dsimp only
  rw [get_next_tokens_nostop _ _ _ _ _ _ hstop]
  obtain ⟨m0, hm0⟩ := acquireValue_noMatch .stringPat 1 _ (hfail _ _)
  rw [hm0]
  simp only [isValueError, hstop, Bool.false_eq_true, if_false, hlt, if_true]

theorem generate_string_failend (cfg : Cfg) (st : St) (temp : Option ℚ)
    (hstop : ∀ n, cfg.stopHist n = false)
    (hfail : ∀ p s, ∀ x ∈ cfg.oracle p s, matchGroup .stringPat x = none) :
    generate_string cfg temp 2 st =
      (.ok "\"",
       ⟨st.progress, st.indent,
        st.clock + consumedCount (some .stringPat) 1
          (cfg.oracle (resolvePrompt cfg none st) ⟨pyOrQ temp cfg.temperature, none⟩),
        st.calls ++ [⟨resolvePrompt cfg none st, ⟨pyOrQ temp cfg.temperature, none⟩⟩]⟩) := by
  rw [generate_string.eq_def]
  dsimp only
  rw [get_next_tokens_nostop _ _ _ _ _ _ hstop]
  obtain ⟨m0, hm0⟩ := acquireValue_noMatch .stringPat 1 _ (hfail _ _)
  rw [hm0]
  simp only [isValueError, hstop, Bool.false_eq_true, if_false]
  norm_num

theorem generate_string_allfail (cfg : Cfg) (st : St)
    (hstop : ∀ n, cfg.stopHist n = false)
    (hfail : ∀ p s, ∀ x ∈ cfg.oracle p s, matchGroup .stringPat x = none)
    (hT : cfg.temperature ≠ 0) :
    (generate_string cfg none 0 st).1 = .ok "\"" ∧
    (generate_string cfg none 0 st).2.calls.map (fun c => c.settings.temperature) =
      st.calls.map (fun c => c.settings.temperature) ++
        [cfg.temperature, cfg.temperature * (13 / 10), cfg.temperature * (13 / 10)] := by
  have hT13 : cfg.temperature * (13 / 10) ≠ 0 := mul_ne_zero hT (by norm_num)
  rw [generate_string_failstep cfg st none 0 hstop hfail (by norm_num)]
  rw [generate_string_failstep cfg _ _ 1 hstop hfail (by norm_num)]
  rw [generate_string_failend cfg _ _ hstop hfail]
  refine ⟨rfl, ?_⟩
  simp [pyOrQ, hT13]

/-- Configuration whose oracle output never matches the string stopping
pattern (no closing quote ever appears), with cancellation never set. -/
def cfgStrFail : Cfg :=
  { prompt := "p"
    json_schema := .null
    temperature := 1
    manual_prompt := true
    max_array_length := 10
    oracle := fun _ _ => ["x"]
    stopHist := neverStop }

theorem cfgStrFail_noMatch :
    ∀ p s, ∀ x ∈ cfgStrFail.oracle p s, matchGroup .stringPat x = none := by
  intro p s x hx
  cases hx with
  | head => rfl
  | tail b h => cases h

/-- C5 counterexample: with every string acquisition failing and the flag
never set, generate_string makes three acquisition attempts and then
returns a single double-quote character, not the empty string after two
failures that the claim describes. -/
theorem C5_counterexample :
    (generate_string cfgStrFail none 0 ⟨"", 0, 0, []⟩).1 = .ok "\"" ∧
    (generate_string cfgStrFail none 0 ⟨"", 0, 0, []⟩).2.calls.length = 3 ∧
    ("\"" : String) ≠ "" := by
  have h := generate_string_allfail cfgStrFail ⟨"", 0, 0, []⟩ (fun _ => rfl)
    cfgStrFail_noMatch (by norm_num [cfgStrFail])
  have hlen := congrArg List.length h.2
  simp at hlen
  exact ⟨h.1, hlen, by simp⟩

/-- C5 amended: on an acquisition failure generate_string retries while
`iterations < 2` — so two retries, with the temperature escalated only on
the first (the second retry passes the already-escalated value through
unchanged) — and on the third failure it returns a single double-quote
character; the re-raise branch is unreachable from a fresh call. -/
theorem C5_amended_string_retry_policy (cfg : Cfg) (st : St)
    (hstop : ∀ n, cfg.stopHist n = false)
    (hfail : ∀ p s, ∀ x ∈ cfg.oracle p s, matchGroup .stringPat x = none)
    (hT : cfg.temperature ≠ 0) :
    (generate_string cfg none 0 st).1 = .ok "\"" ∧
    (generate_string cfg none 0 st).2.calls.map (fun c => c.settings.temperature) =
      st.calls.map (fun c => c.settings.temperature) ++
        [cfg.temperature, cfg.temperature * (13 / 10), cfg.temperature * (13 / 10)] :=
  generate_string_allfail cfg st hstop hfail hT

theorem C5_witness :
    cfgStrFail.temperature ≠ 0 ∧
    (generate_string cfgStrFail none 0 ⟨"", 0, 0, []⟩).1 = .ok "\"" ∧
    (generate_string cfgStrFail none 0 ⟨"", 0, 0, []⟩).2.calls.map
        (fun c => c.settings.temperature) = [1, 13 / 10, 13 / 10] := by
  have h := C5_amended_string_retry_policy cfgStrFail ⟨"", 0, 0, []⟩ (fun _ => rfl)
    cfgStrFail_noMatch (by norm_num [cfgStrFail])
  refine ⟨by norm_num [cfgStrFail], h.1, ?_⟩
  rw [h.2]
  simp [cfgStrFail]

theorem generate_number_failstep (cfg : Cfg) (st : St) (temp : Option ℚ) (it : Nat)
    (hstop : ∀ n, cfg.stopHist n = false)
    (hbad : ∀ p s, ∃ g, acquireValue (some .numberPat) 1 (cfg.oracle p s) = .ok g ∧
      pyFloatParse g = none)
    (hle : ¬ it > 3) :
    generate_number cfg temp it st =
      generate_number cfg (some (pyOrQ temp cfg.temperature * (13 / 10))) (it + 1)
        ⟨st.progress, st.indent,
         st.clock + consumedCount (some .numberPat) 1
           (cfg.oracle (resolvePrompt cfg none st) ⟨pyOrQ temp cfg.temperature, none⟩),
         st.calls ++ [⟨resolvePrompt cfg none st, ⟨pyOrQ temp cfg.temperature, none⟩⟩]⟩ := by
  conv_lhs => rw [generate_number.eq_def]
  dsimp only
  rw [get_next_tokens_nostop _ _ _ _ _ _ hstop]
  obtain ⟨g, hg, hparse⟩ := hbad (resolvePrompt cfg none st) ⟨pyOrQ temp cfg.temperature, none⟩
  rw [hg]
  dsimp only
  rw [hparse]
  simp only [hstop, Bool.false_eq_true, if_false, hle]

theorem generate_number_failend (cfg : Cfg) (st : St) (temp : Option ℚ) (it : Nat)
    (hstop : ∀ n, cfg.stopHist n = false)
    (hbad : ∀ p s, ∃ g, acquireValue (some .numberPat) 1 (cfg.oracle p s) = .ok g ∧
      pyFloatParse g = none)
    (hgt : it > 3) :
    generate_number cfg temp it st =
      (.err (.valueError "Failed to generate a valid number"),
       ⟨st.progress, st.indent,
        st.clock + consumedCount (some .numberPat) 1
          (cfg.oracle (resolvePrompt cfg none st) ⟨pyOrQ temp cfg.temperature, none⟩),
        st.calls ++ [⟨resolvePrompt cfg none st, ⟨pyOrQ temp cfg.temperature, none⟩⟩]⟩) := by
  rw [generate_number.eq_def]
  dsimp only
  rw [get_next_tokens_nostop _ _ _ _ _ _ hstop]
  obtain ⟨g, hg, hparse⟩ := hbad (resolvePrompt cfg none st) ⟨pyOrQ temp cfg.temperature, none⟩
  rw [hg]
  dsimp only
  rw [hparse]
  simp only [hstop, Bool.false_eq_true, if_false, hgt, if_true]

theorem generate_number_allfail (cfg : Cfg) (st : St)
    (hstop : ∀ n, cfg.stopHist n = false)
    (hbad : ∀ p s, ∃ g, acquireValue (some .numberPat) 1 (cfg.oracle p s) = .ok g ∧
      pyFloatParse g = none)
    (hT : cfg.temperature ≠ 0) :
    (generate_number cfg none 0 st).1 = .err (.valueError "Failed to generate a valid number") ∧
    (generate_number cfg none 0 st).2.calls.map (fun c => c.settings.temperature) =
      st.calls.map (fun c => c.settings.temperature) ++
        [cfg.temperature, cfg.temperature * (13 / 10),
         cfg.temperature * (13 / 10) * (13 / 10),
         cfg.temperature * (13 / 10) * (13 / 10) * (13 / 10),
         cfg.temperature * (13 / 10) * (13 / 10) * (13 / 10) * (13 / 10)] := by
  rw [generate_number_failstep cfg st none 0 hstop hbad (by omega)]
  rw [generate_number_failstep cfg _ _ 1 hstop hbad (by omega)]
  rw [generate_number_failstep cfg _ _ 2 hstop hbad (by omega)]
  rw [generate_number_failstep cfg _ _ 3 hstop hbad (by omega)]
  rw [generate_number_failend cfg _ _ 4 hstop hbad (by omega)]
  have h1 : cfg.temperature * (13 / 10) ≠ 0 := mul_ne_zero hT (by norm_num)
  have h2 : cfg.temperature * (13 / 10) * (13 / 10) ≠ 0 := mul_ne_zero h1 (by norm_num)
  have h3 : cfg.temperature * (13 / 10) * (13 / 10) * (13 / 10) ≠ 0 := mul_ne_zero h2 (by norm_num)
  refine ⟨rfl, ?_⟩
  simp [pyOrQ, hT, h1, h2, h3]

theorem generate_number_acqfail (cfg : Cfg) (st : St) (e : PyErr)
    (hstop : ∀ n, cfg.stopHist n = false)
    (herr : acquireValue (some .numberPat) 1
      (cfg.oracle (resolvePrompt cfg none st) ⟨pyOrQ none cfg.temperature, none⟩) = .err e) :
    generate_number cfg none 0 st =
      (.err e,
       ⟨st.progress, st.indent,
        st.clock + consumedCount (some .numberPat) 1
          (cfg.oracle (resolvePrompt cfg none st) ⟨pyOrQ none cfg.temperature, none⟩),
        st.calls ++ [⟨resolvePrompt cfg none st, ⟨pyOrQ none cfg.temperature, none⟩⟩]⟩) := by
  rw [generate_number.eq_def]
  dsimp only
  rw [get_next_tokens_nostop _ _ _ _ _ _ hstop]
  rw [herr]

/-- Configuration whose oracle always yields a snapshot that matches the
number stopping pattern with a capture that does not parse as a float. -/
def cfgNumBad : Cfg :=
  { prompt := "p"
    json_schema := .null
    temperature := 1
    manual_prompt := true
    max_array_length := 10
    oracle := fun _ _ => ["xx,"]
    stopHist := neverStop }

theorem cfgNumBad_hbad :
    ∀ p s, ∃ g, acquireValue (some .numberPat) 1 (cfgNumBad.oracle p s) = .ok g ∧
      pyFloatParse g = none := by
  intro p s
  exact ⟨"xx", rfl, rfl⟩

/-- C4 counterexample: against an oracle whose every capture fails to
parse, generate_number performs five acquisitions — the initial attempt
plus four escalated retries — before raising, not the three additional
retries the claim states; the call log length is 5. -/
theorem C4_counterexample :
    (generate_number cfgNumBad none 0 ⟨"", 0, 0, []⟩).1 =
      .err (.valueError "Failed to generate a valid number") ∧
    (generate_number cfgNumBad none 0 ⟨"", 0, 0, []⟩).2.calls.length = 5 := by
  have h := generate_number_allfail cfgNumBad ⟨"", 0, 0, []⟩ (fun _ => rfl) cfgNumBad_hbad
    (by norm_num [cfgNumBad])
  have hlen := congrArg List.length h.2
  simp at hlen
  exact ⟨h.1, hlen⟩

/-- C4 amended: a parse failure is retried while `iterations <= 3`, so an
all-unparseable oracle sees five acquisitions at temperatures T, 1.3 T,
1.3² T, 1.3³ T, 1.3⁴ T before ValueError is raised; an acquisition
failure (stopping-pattern or protocol error) is outside the `try` block
and propagates immediately after a single oracle call, with no retry. -/
theorem C4_amended_number_retry_policy (cfg : Cfg) (st : St) (e : PyErr) :
    ((∀ n, cfg.stopHist n = false) →
      (∀ p s, ∃ g, acquireValue (some .numberPat) 1 (cfg.oracle p s) = .ok g ∧
        pyFloatParse g = none) →
      cfg.temperature ≠ 0 →
      (generate_number cfg none 0 st).1 =
        .err (.valueError "Failed to generate a valid number") ∧
      (generate_number cfg none 0 st).2.calls.map (fun c => c.settings.temperature) =
        st.calls.map (fun c => c.settings.temperature) ++
          [cfg.temperature, cfg.temperature * (13 / 10),
           cfg.temperature * (13 / 10) * (13 / 10),
           cfg.temperature * (13 / 10) * (13 / 10) * (13 / 10),
           cfg.temperature * (13 / 10) * (13 / 10) * (13 / 10) * (13 / 10)]) ∧
    ((∀ n, cfg.stopHist n = false) →
      acquireValue (some .numberPat) 1
        (cfg.oracle (resolvePrompt cfg none st) ⟨pyOrQ none cfg.temperature, none⟩) = .err e →
      generate_number cfg none 0 st =
        (.err e,
         ⟨st.progress, st.indent,
          st.clock + consumedCount (some .numberPat) 1
            (cfg.oracle (resolvePrompt cfg none st) ⟨pyOrQ none cfg.temperature, none⟩),
          st.calls ++ [⟨resolvePrompt cfg none st, ⟨pyOrQ none cfg.temperature, none⟩⟩]⟩)) := by
  constructor
  · intro hstop hbad hT
    exact generate_number_allfail cfg st hstop hbad hT
  · intro hstop herr
    exact generate_number_acqfail cfg st e hstop herr

theorem C4_witness :
    (generate_number cfgNumBad none 0 ⟨"", 0, 0, []⟩).2.calls.map
        (fun c => c.settings.temperature) =
      [1, 1 * (13 / 10), 1 * (13 / 10) * (13 / 10), 1 * (13 / 10) * (13 / 10) * (13 / 10),
       1 * (13 / 10) * (13 / 10) * (13 / 10) * (13 / 10)] ∧
    generate_number cfgStrFail none 0 ⟨"", 0, 0, []⟩ =
      (.err (.valueError "Failed to find match for stopping regex before end of response"),
       ⟨"", 0, 1,
        [⟨"p\n", ⟨1, none⟩⟩]⟩) := by
  constructor
  · have h := ((C4_amended_number_retry_policy cfgNumBad ⟨"", 0, 0, []⟩ .keyError).1
      (fun _ => rfl) cfgNumBad_hbad (by norm_num [cfgNumBad])).2
    rw [h]
    simp [cfgNumBad]
  · exact (C4_amended_number_retry_policy cfgStrFail ⟨"", 0, 0, []⟩
      (.valueError "Failed to find match for stopping regex before end of response")).2
      (fun _ => rfl) (by decide)

theorem arrayContinue_count_le (cfg : Cfg) (item : JVal) :
    ∀ k acc st n st', arrayContinue cfg item k acc st = (.ok n, st') → n ≤ acc + k := by
  intro k
  induction k with
  | zero =>
    intro acc st n st' h
    rw [arrayContinue.eq_def] at h
    simp at h
    omega
  | succ k ih =>
    intro acc st n st' h
    rw [arrayContinue.eq_def] at h
    dsimp only at h
    cases hgnt : get_next_tokens cfg ⟨cfg.temperature, some 3⟩ none 0
        (some (rstripQuoteBrace (get_prompt cfg st))) st with
    | mk r st1 =>
      rw [hgnt] at h
      cases r with
      | err e => simp at h
      | ok nt =>
        by_cases hc : (nt.toList.take 3).contains ','
        · simp only [hc, if_true] at h
          cases hgv : generate_value cfg item none
              (apply_indent (apply_newline (add_to_progress "," st1))) with
          | mk rv st3 =>
            rw [hgv] at h
            cases rv with
            | err e => simp at h
            | ok u =>
              have := ih (acc + 1) st3 n st' h
              omega
        · simp only [hc, Bool.false_eq_true, if_false] at h
          simp at h
          omega

theorem arrayContinue_count_ge (cfg : Cfg) (item : JVal) :
    ∀ k acc st n st', arrayContinue cfg item k acc st = (.ok n, st') → acc ≤ n := by
  intro k
  induction k with
  | zero =>
    intro acc st n st' h
    rw [arrayContinue.eq_def] at h
    simp at h
    omega
  | succ k ih =>
    intro acc st n st' h
    rw [arrayContinue.eq_def] at h
    dsimp only at h
    cases hgnt : get_next_tokens cfg ⟨cfg.temperature, some 3⟩ none 0
        (some (rstripQuoteBrace (get_prompt cfg st))) st with
    | mk r st1 =>
      rw [hgnt] at h
      cases r with
      | err e => simp at h
      | ok nt =>
        by_cases hc : (nt.toList.take 3).contains ','
        · simp only [hc, if_true] at h
          cases hgv : generate_value cfg item none
              (apply_indent (apply_newline (add_to_progress "," st1))) with
          | mk rv st3 =>
            rw [hgv] at h
            cases rv with
            | err e => simp at h
            | ok u =>
              have := ih (acc + 1) st3 n st' h
              omega
        · simp only [hc, Bool.false_eq_true, if_false] at h
          simp at h
          omega

theorem generate_array_count_le (cfg : Cfg) (item : JVal) (st : St) (n : Nat) (st' : St)
    (hmal : 1 ≤ cfg.max_array_length)
    (h : generate_array cfg item st = (.ok n, st')) : n ≤ cfg.max_array_length := by
  rw [generate_array.eq_def] at h
  cases hgnt : get_next_tokens cfg ⟨cfg.temperature, some 6⟩ (some .arrayEmptyPat) 1 none st with
  | mk r st1 =>
    rw [hgnt] at h
    cases r with
    | err e => simp at h
    | ok fnwc =>
      dsimp only at h
      cases hlast : fnwc.toList.getLast? with
      | none => rw [hlast] at h; simp at h
      | some c =>
        rw [hlast] at h
        by_cases hc : c = ']'
        · simp only [hc, if_true] at h
          simp at h
          omega
        · simp only [hc, Bool.false_eq_true, if_false] at h
          cases hgv : generate_value cfg item none
              (apply_indent (increase_indent (apply_newline (add_to_progress "[" st1)))) with
          | mk rv st3 =>
            rw [hgv] at h
            cases rv with
            | err e => simp at h
            | ok u =>
              dsimp only at h
              cases hac : arrayContinue cfg item (cfg.max_array_length - 1) 1 st3 with
              | mk ra st4 =>
                rw [hac] at h
                cases ra with
                | err e => simp at h
                | ok m =>
                  have := arrayContinue_count_le cfg item (cfg.max_array_length - 1) 1 st3 m st4 hac
                  simp at h
                  omega

theorem generate_array_empty_case (cfg : Cfg) (item : JVal) (st : St) (fnwc : String) (st1 : St)
    (hprobe : get_next_tokens cfg ⟨cfg.temperature, some 6⟩ (some .arrayEmptyPat) 1 none st =
      (.ok fnwc, st1))
    (hlast : fnwc.toList.getLast? = some ']') :
    generate_array cfg item st = (.ok 0, add_to_progress "[]" st1) ∧
    st1.progress = st.progress := by
  constructor
  · rw [generate_array.eq_def, hprobe]
    simp only [hlast]
    simp
  · have := (get_next_tokens_state cfg ⟨cfg.temperature, some 6⟩ (some .arrayEmptyPat) 1 none st).1.1
    rw [hprobe] at this
    exact this

/-- C2: an array that completes normally has at most `max_array_length`
elements (the configured bound is at least 1, as in every instantiation in
the source, whose default is 10); and when the emptiness probe's captured
two-non-whitespace-character string ends in `]`, generate_array appends
exactly `[]` to the unchanged buffer and generates no element at all. -/
theorem C2_array_length_bounds (cfg : Cfg) (item : JVal) (st : St) :
    (∀ n st', 1 ≤ cfg.max_array_length →
      generate_array cfg item st = (.ok n, st') → n ≤ cfg.max_array_length) ∧
    (∀ fnwc st1,
      get_next_tokens cfg ⟨cfg.temperature, some 6⟩ (some .arrayEmptyPat) 1 none st =
        (.ok fnwc, st1) →
      fnwc.toList.getLast? = some ']' →
      generate_array cfg item st = (.ok 0, add_to_progress "[]" st1) ∧
      st1.progress = st.progress) := by
  constructor
  · intro n st' hmal h
    exact generate_array_count_le cfg item st n st' hmal h
  · intro fnwc st1 hprobe hlast
    exact generate_array_empty_case cfg item st fnwc st1 hprobe hlast

/-- Oracle signalling an empty array at the emptiness probe. -/
def cfgArrEmpty : Cfg :=
  { prompt := "p"
    json_schema := .null
    temperature := 1
    manual_prompt := true
    max_array_length := 10
    oracle := fun _ _ => ["[]"]
    stopHist := neverStop }

theorem C2_witness :
    generate_array cfgArrEmpty .null ⟨"", 0, 0, []⟩ =
      (.ok 0, ⟨"[]", 0, 1, [⟨"p\n", ⟨1, some 6⟩⟩]⟩) ∧
    1 ≤ cfgArrEmpty.max_array_length ∧ (0 : Nat) ≤ cfgArrEmpty.max_array_length := by
  have hpart := (C2_array_length_bounds cfgArrEmpty .null ⟨"", 0, 0, []⟩).2 "[]"
    ⟨"", 0, 1, [⟨"p\n", ⟨1, some 6⟩⟩]⟩ rfl rfl
  have hrun : generate_array cfgArrEmpty .null ⟨"", 0, 0, []⟩ =
      (.ok 0, ⟨"[]", 0, 1, [⟨"p\n", ⟨1, some 6⟩⟩]⟩) := by
    rw [hpart.1]
    rfl
  refine ⟨hrun, by decide, ?_⟩
  exact (C2_array_length_bounds cfgArrEmpty .null ⟨"", 0, 0, []⟩).1 0 _ (by decide) hrun

theorem resolvePrompt_some_ne (cfg : Cfg) (p : String) (st : St) (hp : p ≠ "") :
    resolvePrompt cfg (some p) st = p := by
  simp [resolvePrompt, hp]

/-- C3: each continuation decision probes the oracle with a
prompt_override equal to the current prompt with all trailing `"` and `}`
characters stripped (at temperature `self.temperature` and
max_new_tokens 3), leaving the buffer untouched; another element is
generated exactly when a comma occurs among the first 3 characters of the
probe's returned text — otherwise the loop stops with the element count
unchanged. -/
theorem C3_continuation_probe (cfg : Cfg) (item : JVal) (k acc : Nat) (st : St)
    (t : String) (st1 : St)
    (hne : rstripQuoteBrace (get_prompt cfg st) ≠ "")
    (hprobe : get_next_tokens cfg ⟨cfg.temperature, some 3⟩ none 0
      (some (rstripQuoteBrace (get_prompt cfg st))) st = (.ok t, st1)) :
    (st1.calls = st.calls ++
        [⟨rstripQuoteBrace (get_prompt cfg st), ⟨cfg.temperature, some 3⟩⟩] ∧
      st1.progress = st.progress ∧ st1.indent = st.indent) ∧
    (¬ ',' ∈ t.toList.take 3 →
      arrayContinue cfg item (k + 1) acc st = (.ok acc, st1)) ∧
    (',' ∈ t.toList.take 3 →
      ∀ n st2, arrayContinue cfg item (k + 1) acc st = (.ok n, st2) → acc + 1 ≤ n) := by
  have hstate := get_next_tokens_state cfg ⟨cfg.temperature, some 3⟩ none 0
    (some (rstripQuoteBrace (get_prompt cfg st))) st
  rw [hprobe, resolvePrompt_some_ne cfg _ st hne] at hstate
  refine ⟨⟨hstate.2, hstate.1.1, hstate.1.2⟩, ?_, ?_⟩
  · intro hmem
    have hc : (t.toList.take 3).contains ',' = false := by
      cases hcc : (t.toList.take 3).contains ',' with
      | false => rfl
      | true => exact absurd (by simpa using hcc) hmem
    rw [arrayContinue.eq_def]
    dsimp only
    rw [hprobe]
    simp only [hc, Bool.false_eq_true, if_false]
  · intro hmem n st2 h
    have hc : (t.toList.take 3).contains ',' = true := by simpa using hmem
    rw [arrayContinue.eq_def] at h
    dsimp only at h
    rw [hprobe] at h
    simp only [hc, if_true] at h
    cases hgv : generate_value cfg item none
        (apply_indent (apply_newline (add_to_progress "," st1))) with
    | mk rv st3 =>
      rw [hgv] at h
      cases rv with
      | err e => simp at h
      | ok u =>
        exact arrayContinue_count_ge cfg item k (acc + 1) st3 n st2 h

/-- Oracle whose continuation-probe reply contains no comma. -/
def cfgNoComma : Cfg :=
  { prompt := "p"
    json_schema := .null
    temperature := 1
    manual_prompt := true
    max_array_length := 10
    oracle := fun _ _ => ["zz"]
    stopHist := neverStop }

theorem C3_witness :
    rstripQuoteBrace (get_prompt cfgNoComma ⟨"", 0, 0, []⟩) ≠ "" ∧
    ¬ ',' ∈ ("zz" : String).toList.take 3 ∧
    arrayContinue cfgNoComma .null 1 1 ⟨"", 0, 0, []⟩ =
      (.ok 1, ⟨"", 0, 1, [⟨"p\n", ⟨1, some 3⟩⟩]⟩) := by
  have h := C3_continuation_probe cfgNoComma .null 0 1 ⟨"", 0, 0, []⟩ "zz"
    ⟨"", 0, 1, [⟨"p\n", ⟨1, some 3⟩⟩]⟩ (by decide) rfl
  exact ⟨by decide, by decide, h.2.1 (by decide)⟩

theorem add_to_progress_indent (s : String) (st : St) :
    (add_to_progress s st).indent = st.indent := rfl

theorem apply_newline_indent (st : St) : (apply_newline st).indent = st.indent := rfl

theorem apply_indent_indent (st : St) : (apply_indent st).indent = st.indent := rfl

theorem apply_key_indent (k : String) (st : St) : (apply_key k st).indent = st.indent := rfl

theorem applyKeyOpt_indent (key : Option String) (st : St) :
    (applyKeyOpt key st).indent = st.indent := by
  cases key with
  | none => rfl
  | some k =>
    by_cases hk : k = "" <;> simp [applyKeyOpt, hk, apply_key_indent]

theorem increase_indent_indent (st : St) : (increase_indent st).indent = st.indent + 4 := rfl

theorem decrease_indent_indent (st : St) : (decrease_indent st).indent = st.indent - 4 := rfl

theorem get_next_tokens_indent (cfg : Cfg) (s : GenSettings) (pat : Option StopPat) (grp : Nat)
    (ovr : Option String) (st : St) (r : PyResult String) (st1 : St)
    (h : get_next_tokens cfg s pat grp ovr st = (r, st1)) :
    st1.indent = st.indent ∧ st1.progress = st.progress := by
  have hs := get_next_tokens_state cfg s pat grp ovr st
  rw [h] at hs
  exact ⟨hs.1.2, hs.1.1⟩

theorem generate_number_snd_indent (cfg : Cfg) :
    ∀ n temp it st, 4 - it ≤ n →
      ((generate_number cfg temp it st).2).indent = st.indent := by
  intro n
  induction n using Nat.strong_induction_on with
  | _ n ih =>
    intro temp it st hn
    rw [generate_number.eq_def]
    dsimp only
    cases hgnt : get_next_tokens cfg ⟨pyOrQ temp cfg.temperature, none⟩ (some .numberPat) 1
        none st with
    | mk r0 st1 =>
      have hind := (get_next_tokens_indent cfg _ _ _ _ _ _ _ hgnt).1
      cases r0 with
      | err e => exact hind
      | ok response =>
        dsimp only
        cases pyFloatParse response with
        | some f => exact hind
        | none =>
          dsimp only
          split
          · exact hind
          · split
            · exact hind
            · rename_i hflag hgt
              have hlt : 4 - (it + 1) < n := by omega
              rw [ih (4 - (it + 1)) hlt _ (it + 1) st1 (by omega)]
              exact hind

theorem generate_boolean_snd_indent (cfg : Cfg) :
    ∀ n temp it st, 4 - it ≤ n →
      ((generate_boolean cfg temp it st).2).indent = st.indent := by
  intro n
  induction n using Nat.strong_induction_on with
  | _ n ih =>
    intro temp it st hn
    rw [generate_boolean.eq_def]
    dsimp only
    cases hgnt : get_next_tokens cfg ⟨pyOrQ temp cfg.temperature, some 6⟩ (some .booleanPat) 1
        none st with
    | mk r0 st1 =>
      have hind := (get_next_tokens_indent cfg _ _ _ _ _ _ _ hgnt).1
      cases r0 with
      | ok response =>
        dsimp only
        split
        · exact hind
        · split
          · exact hind
          · split
            · rename_i h1 h2 hle
              have hlt : 4 - (it + 1) < n := by omega
              rw [ih (4 - (it + 1)) hlt _ (it + 1) st1 (by omega)]
              exact hind
            · exact hind
      | err e =>
        dsimp only
        split
        · split
          · exact hind
          · split
            · rename_i h1 h2 hle
              have hlt : 4 - (it + 1) < n := by omega
              rw [ih (4 - (it + 1)) hlt _ (it + 1) st1 (by omega)]
              exact hind
            · exact hind
        · exact hind

theorem generate_string_snd_indent (cfg : Cfg) :
    ∀ n temp it st, 2 - it ≤ n →
      ((generate_string cfg temp it st).2).indent = st.indent := by
  intro n
  induction n using Nat.strong_induction_on with
  | _ n ih =>
    intro temp it st hn
    rw [generate_string.eq_def]
    dsimp only
    cases hgnt : get_next_tokens cfg ⟨pyOrQ temp cfg.temperature, none⟩ (some .stringPat) 1
        none st with
    | mk r0 st1 =>
      have hind := (get_next_tokens_indent cfg _ _ _ _ _ _ _ hgnt).1
      cases r0 with
      | ok response => exact hind
      | err e =>
        dsimp only
        split
        · split
          · exact hind
          · split
            · rename_i h1 h2 hlt2
              have hlt : 2 - (it + 1) < n := by omega
              rw [ih (2 - (it + 1)) hlt _ (it + 1) st1 (by omega)]
              exact hind
            · split
              · exact hind
              · exact hind
        · exact hind

theorem number_result_indent (cfg : Cfg) (st : St) (r : PyResult NumRet) (st1 : St)
    (h : generate_number cfg none 0 st = (r, st1)) : st1.indent = st.indent := by
  have hp := generate_number_snd_indent cfg 4 none 0 st (by omega)
  rw [h] at hp
  exact hp

theorem boolean_result_indent (cfg : Cfg) (st : St) (r : PyResult BoolRet) (st1 : St)
    (h : generate_boolean cfg none 0 st = (r, st1)) : st1.indent = st.indent := by
  have hp := generate_boolean_snd_indent cfg 4 none 0 st (by omega)
  rw [h] at hp
  exact hp

theorem string_result_indent (cfg : Cfg) (st : St) (r : PyResult String) (st1 : St)
    (h : generate_string cfg none 0 st = (r, st1)) : st1.indent = st.indent := by
  have hp := generate_string_snd_indent cfg 2 none 0 st (by omega)
  rw [h] at hp
  exact hp

/-- Indent preservation: a normally-completing generate_value call. -/
def PVal (cfg : Cfg) (schema : JVal) (key : Option String) (st : St) : Prop :=
  ∀ u st', generate_value cfg schema key st = (.ok u, st') → st'.indent = st.indent

/-- Indent preservation: a normally-completing generate_object call. -/
def PObj (cfg : Cfg) (props : JVal) (st : St) : Prop :=
  ∀ u st', generate_object cfg props st = (.ok u, st') → st'.indent = st.indent

/-- Indent preservation: a normally-completing objLoop call. -/
def PLoop (cfg : Cfg) (l : List (String × JVal)) (st : St) : Prop :=
  ∀ u st', objLoop cfg l st = (.ok u, st') → st'.indent = st.indent

/-- Indent preservation: a normally-completing generate_array call. -/
def PArr (cfg : Cfg) (item : JVal) (st : St) : Prop :=
  ∀ n st', generate_array cfg item st = (.ok n, st') → st'.indent = st.indent

/-- Indent preservation: a normally-completing arrayContinue call. -/
def PCont (cfg : Cfg) (item : JVal) (k count : Nat) (st : St) : Prop :=
  ∀ n st', arrayContinue cfg item k count st = (.ok n, st') → st'.indent = st.indent

theorem indent_pres_all (cfg : Cfg) :
    (∀ schema key st, PVal cfg schema key st) ∧ (∀ props st, PObj cfg props st) ∧
    (∀ l st, PLoop cfg l st) ∧ (∀ item st, PArr cfg item st) ∧
    (∀ item k count st, PCont cfg item k count st) := by
  apply generate_value.mutual_induct cfg (PVal cfg) (PObj cfg) (PLoop cfg) (PArr cfg) (PCont cfg)
  case case1 =>
    intro schema key st hpd u st' h
    rw [generate_value.eq_def] at h
    simp only [hpd] at h
    simp at h
  case case2 =>
    intro schema key st t hpd st0 hnum nn st1 hgen u st' h
    rw [show st0 = applyKeyOpt key st from rfl] at hgen
    rw [generate_value.eq_def] at h
    simp only [hpd] at h
    rw [if_pos hnum, hgen] at h
    dsimp only at h
    simp only [Prod.mk.injEq] at h
    rw [← h.2, add_to_progress_indent]
    rw [number_result_indent cfg _ _ _ hgen, applyKeyOpt_indent]
  case case3 =>
    intro schema key st t hpd st0 hnum e st1 hgen u st' h
    rw [show st0 = applyKeyOpt key st from rfl] at hgen
    rw [generate_value.eq_def] at h
    simp only [hpd] at h
    rw [if_pos hnum, hgen] at h
    simp at h
  case case4 =>
    intro schema key st t hpd st0 hnn hb bb st1 hgen u st' h
    rw [show st0 = applyKeyOpt key st from rfl] at hgen
    rw [generate_value.eq_def] at h
    simp only [hpd] at h
    rw [if_neg hnn, if_pos hb, hgen] at h
    dsimp only at h
    simp only [Prod.mk.injEq] at h
    rw [← h.2, add_to_progress_indent]
    rw [boolean_result_indent cfg _ _ _ hgen, applyKeyOpt_indent]
  case case5 =>
    intro schema key st t hpd st0 hnn hb e st1 hgen u st' h
    rw [show st0 = applyKeyOpt key st from rfl] at hgen
    rw [generate_value.eq_def] at h
    simp only [hpd] at h
    rw [if_neg hnn, if_pos hb, hgen] at h
    simp at h
  case case6 =>
    intro schema key st t hpd st0 hnn hnb hs resp st1 hgen u st' h
    rw [show st0 = applyKeyOpt key st from rfl] at hgen
    rw [generate_value.eq_def] at h
    simp only [hpd] at h
    rw [if_neg hnn, if_neg hnb, if_pos hs, hgen] at h
    dsimp only at h
    simp only [Prod.mk.injEq] at h
    rw [← h.2, add_to_progress_indent, add_to_progress_indent]
    have := string_result_indent cfg _ _ _ hgen
    rw [this, add_to_progress_indent, applyKeyOpt_indent]
  case case7 =>
    intro schema key st t hpd st0 hnn hnb hs e st1 hgen u st' h
    rw [show st0 = applyKeyOpt key st from rfl] at hgen
    rw [generate_value.eq_def] at h
    simp only [hpd] at h
    rw [if_neg hnn, if_neg hnb, if_pos hs, hgen] at h
    simp at h
  case case8 =>
    intro schema key st t hpd hnn hnb hns ha hattach u st' h
    rw [generate_value.eq_def] at h
    simp only [hpd] at h
    rw [if_neg hnn, if_neg hnb, if_neg hns, if_pos ha, hattach] at h
    simp at h
  case case9 =>
    intro schema key st t hpd st0 hnn hnb hns ha items hitems hattach a st1 hgen hIH u st' h
    rw [show st0 = applyKeyOpt key st from rfl] at hgen hIH
    rw [generate_value.eq_def] at h
    simp only [hpd] at h
    rw [if_neg hnn, if_neg hnb, if_neg hns, if_pos ha, hattach] at h
    dsimp only at h
    rw [hgen] at h
    simp only [Prod.mk.injEq] at h
    rw [← h.2]
    rw [hIH a st1 hgen, applyKeyOpt_indent]
  case case10 =>
    intro schema key st t hpd st0 hnn hnb hns ha items hitems hattach e st1 hgen hIH u st' h
    rw [show st0 = applyKeyOpt key st from rfl] at hgen hIH
    rw [generate_value.eq_def] at h
    simp only [hpd] at h
    rw [if_neg hnn, if_neg hnb, if_neg hns, if_pos ha, hattach] at h
    dsimp only at h
    rw [hgen] at h
    simp at h
  case case11 =>
    intro schema key st t hpd hnn hnb hns hna ho hattach u st' h
    rw [generate_value.eq_def] at h
    simp only [hpd] at h
    rw [if_neg hnn, if_neg hnb, if_neg hns, if_neg hna, if_pos ho, hattach] at h
    simp at h
  case case12 =>
    intro schema key st t hpd st0 hnn hnb hns hna ho props hprops hattach hIH u st' h
    rw [show st0 = applyKeyOpt key st from rfl] at hIH
    rw [generate_value.eq_def] at h
    simp only [hpd] at h
    rw [if_neg hnn, if_neg hnb, if_neg hns, if_neg hna, if_pos ho, hattach] at h
    dsimp only at h
    rw [hIH u st' h, applyKeyOpt_indent]
  case case13 =>
    intro schema key st t hpd hnn hnb hns hna hno u st' h
    rw [generate_value.eq_def] at h
    simp only [hpd] at h
    rw [if_neg hnn, if_neg hnb, if_neg hns, if_neg hna, if_neg hno] at h
    simp at h
  case case14 =>
    intro st kvs hempty u st' h
    rw [generate_object.eq_def] at h
    dsimp only at h
    rw [if_pos hempty] at h
    simp only [Prod.mk.injEq] at h
    rw [← h.2, add_to_progress_indent, add_to_progress_indent]
  case case15 =>
    intro st stA kvs hne a st1 hloop hIH u st' h
    rw [show stA = add_to_progress "\x7b" st from rfl] at hloop hIH
    rw [generate_object.eq_def] at h
    dsimp only at h
    rw [if_neg hne, hloop] at h
    simp only [Prod.mk.injEq] at h
    rw [← h.2, add_to_progress_indent, apply_indent_indent, decrease_indent_indent,
      apply_newline_indent]
    have h1 := hIH a st1 hloop
    rw [increase_indent_indent, add_to_progress_indent] at h1
    omega
  case case16 =>
    intro st stA kvs hne e st1 hloop hIH u st' h
    rw [show stA = add_to_progress "\x7b" st from rfl] at hloop hIH
    rw [generate_object.eq_def] at h
    dsimp only at h
    rw [if_neg hne, hloop] at h
    simp at h
  case case17 =>
    intro props st hno u st' h
    rw [generate_object.eq_def] at h
    cases props with
    | obj kvs => exact (hno kvs rfl).elim
    | str s => simp at h
    | num q => simp at h
    | boolean b => simp at h
    | null => simp at h
    | arr xs => simp at h
  case case18 =>
    intro st u st' h
    rw [objLoop.eq_def] at h
    simp only [Prod.mk.injEq] at h
    rw [← h.2]
  case case19 =>
    intro st k v hIH u st' h
    rw [objLoop.eq_def] at h
    dsimp only at h
    rw [hIH u st' h, apply_newline_indent]
  case case20 =>
    intro st k v rest hne a st1 hgen hIH1 hIH2 u st' h
    cases rest with
    | nil => exact (hne rfl).elim
    | cons hd tl =>
      rw [objLoop.eq_def] at h
      dsimp only at h
      rw [hgen] at h
      dsimp only at h
      rw [hIH2 u st' h, add_to_progress_indent, hIH1 a st1 hgen, apply_newline_indent]
  case case21 =>
    intro st k v rest hne e st1 hgen hIH1 u st' h
    cases rest with
    | nil => exact (hne rfl).elim
    | cons hd tl =>
      rw [objLoop.eq_def] at h
      dsimp only at h
      rw [hgen] at h
      simp at h
  case case22 =>
    intro item st e st1 hgnt u st' h
    rw [generate_array.eq_def] at h
    rw [hgnt] at h
    simp at h
  case case23 =>
    intro item st fnwc st1 hgnt hlast u st' h
    rw [generate_array.eq_def] at h
    rw [hgnt] at h
    dsimp only at h
    rw [hlast] at h
    simp at h
  case case24 =>
    intro item st fnwc st1 hgnt hlast u st' h
    rw [generate_array.eq_def] at h
    rw [hgnt] at h
    dsimp only at h
    rw [hlast] at h
    dsimp only at h
    have hcc : (']' : Char) = ']' := rfl
    rw [if_pos hcc] at h
    simp only [Prod.mk.injEq] at h
    rw [← h.2, add_to_progress_indent, (get_next_tokens_indent cfg _ _ _ _ _ _ _ hgnt).1]
  case case25 =>
    intro item st fnwc st1 hgnt c hlast hc st2 e st3 hgen hIH u st' h
    rw [show st2 = apply_indent (increase_indent (apply_newline (add_to_progress "[" st1)))
      from rfl] at hgen hIH
    rw [generate_array.eq_def] at h
    rw [hgnt] at h
    dsimp only at h
    rw [hlast] at h
    dsimp only at h
    rw [if_neg hc, hgen] at h
    simp at h
  case case26 =>
    intro item st fnwc st1 hgnt c hlast hc st2 a st3 hgen e st4 hac hIH1 hIH2 u st' h
    rw [show st2 = apply_indent (increase_indent (apply_newline (add_to_progress "[" st1)))
      from rfl] at hgen hIH1
    rw [generate_array.eq_def] at h
    rw [hgnt] at h
    dsimp only at h
    rw [hlast] at h
    dsimp only at h
    rw [if_neg hc, hgen] at h
    dsimp only at h
    rw [hac] at h
    simp at h
  case case27 =>
    intro item st fnwc st1 hgnt c hlast hc st2 a st3 hgen n2 st4 hac hIH1 hIH2 u st' h
    rw [show st2 = apply_indent (increase_indent (apply_newline (add_to_progress "[" st1)))
      from rfl] at hgen hIH1
    rw [generate_array.eq_def] at h
    rw [hgnt] at h
    dsimp only at h
    rw [hlast] at h
    dsimp only at h
    rw [if_neg hc, hgen] at h
    dsimp only at h
    rw [hac] at h
    simp only [Prod.mk.injEq] at h
    rw [← h.2, add_to_progress_indent, apply_indent_indent, decrease_indent_indent,
      apply_newline_indent]
    have h4 := hIH2 n2 st4 hac
    have h3 := hIH1 a st3 hgen
    rw [apply_indent_indent, increase_indent_indent, apply_newline_indent,
      add_to_progress_indent] at h3
    have h1 := (get_next_tokens_indent cfg _ _ _ _ _ _ _ hgnt).1
    omega
  case case28 =>
    intro item count st n st' h
    rw [arrayContinue.eq_def] at h
    simp only [Prod.mk.injEq] at h
    rw [← h.2]
  case case29 =>
    intro item count st m e st1 hgnt n st' h
    rw [arrayContinue.eq_def] at h
    dsimp only at h
    rw [hgnt] at h
    simp at h
  case case30 =>
    intro item count st m fnwc st1 hgnt hc st2 e st3 hgen hIH n st' h
    rw [show st2 = apply_indent (apply_newline (add_to_progress "," st1)) from rfl] at hgen hIH
    rw [arrayContinue.eq_def] at h
    dsimp only at h
    rw [hgnt] at h
    dsimp only at h
    rw [if_pos hc, hgen] at h
    simp at h
  case case31 =>
    intro item count st m fnwc st1 hgnt hc st2 a st3 hgen hIH1 hIH2 n st' h
    rw [show st2 = apply_indent (apply_newline (add_to_progress "," st1)) from rfl] at hgen hIH1
    rw [arrayContinue.eq_def] at h
    dsimp only at h
    rw [hgnt] at h
    dsimp only at h
    rw [if_pos hc, hgen] at h
    dsimp only at h
    have h5 := hIH2 n st' h
    have h3 := hIH1 a st3 hgen
    rw [apply_indent_indent, apply_newline_indent, add_to_progress_indent] at h3
    have h1 := (get_next_tokens_indent cfg _ _ _ _ _ _ _ hgnt).1
    omega
  case case32 =>
    intro item count st m fnwc st1 hgnt hc n st' h
    rw [arrayContinue.eq_def] at h
    dsimp only at h
    rw [hgnt] at h
    dsimp only at h
    rw [if_neg hc] at h
    simp only [Prod.mk.injEq] at h
    rw [← h.2, (get_next_tokens_indent cfg _ _ _ _ _ _ _ hgnt).1]

/-- C9: every increase_indent a composite generator performs is matched by
exactly one decrease_indent before normal return, so generate_object and
generate_array restore the indent counter, and a whole session starting at
indent 0 ends at indent 0. -/
theorem C9_indent_restored (cfg : Cfg) :
    (∀ props st u st', generate_object cfg props st = (.ok u, st') → st'.indent = st.indent) ∧
    (∀ item st n st', generate_array cfg item st = (.ok n, st') → st'.indent = st.indent) ∧
    (∀ u st', jsonformer_run cfg = (.ok u, st') → st'.indent = 0) := by
  obtain ⟨hv, ho, hl, ha, hc⟩ := indent_pres_all cfg
  refine ⟨fun props st => ho props st, fun item st => ha item st, ?_⟩
  intro u st' h
  have hrun := hv cfg.json_schema none ⟨"", 0, 0, []⟩ u st' h
  simpa using hrun

theorem C9_witness :
    generate_object cfgC1
        (.obj [("name", .obj [("type", .str "string")]), ("age", .obj [("type", .str "number")])])
        ⟨"", 0, 0, []⟩ =
      (.ok (), ⟨"\x7b\n    \"name\": \"Ann\",\n    \"age\": 30.0\n\x7d", 0, 2,
        [⟨"Describe Ann.\n\x7b\n    \"name\": \"", ⟨1, none⟩⟩,
         ⟨"Describe Ann.\n\x7b\n    \"name\": \"Ann\",\n    \"age\": ", ⟨1, none⟩⟩]⟩) ∧
    ((⟨"\x7b\n    \"name\": \"Ann\",\n    \"age\": 30.0\n\x7d", 0, 2,
        [⟨"Describe Ann.\n\x7b\n    \"name\": \"", ⟨1, none⟩⟩,
         ⟨"Describe Ann.\n\x7b\n    \"name\": \"Ann\",\n    \"age\": ", ⟨1, none⟩⟩]⟩ : St).indent =
      (⟨"", 0, 0, []⟩ : St).indent) ∧
    ((jsonformer_run cfgC1).2).indent = 0 := by
  have hobj := c1_step_object
  have hrun : jsonformer_run cfgC1 =
      (.ok (), ⟨"\x7b\n    \"name\": \"Ann\",\n    \"age\": 30.0\n\x7d", 0, 2,
        [⟨"Describe Ann.\n\x7b\n    \"name\": \"", ⟨1, none⟩⟩,
         ⟨"Describe Ann.\n\x7b\n    \"name\": \"Ann\",\n    \"age\": ", ⟨1, none⟩⟩]⟩) := by
    have h0 : jsonformer_run cfgC1 = generate_value cfgC1 schemaC1 none ⟨"", 0, 0, []⟩ := rfl
    rw [h0, c1_step_root, c1_step_object]
  refine ⟨hobj, ?_, ?_⟩
  · exact (C9_indent_restored cfgC1).1 _ _ _ _ hobj
  · rw [hrun]

/-- Schema the validator rejects: property `age` carries the invalid type
value `tuple`. -/
def schemaC8 : JVal :=
  .obj [("type", .str "object"),
        ("properties", .obj [("name", .obj [("type", .str "string")]),
                             ("age", .obj [("type", .str "tuple")])])]

/-- Underlying generation function of the C8 run: answers the name slot. -/
def baseC8 : String → ℚ → Nat → List String := fun p _ _ =>
  if strEndsWith p "\"name\": \"" then ["Ann\""] else []

/-- Configuration custom_generate_reply builds for the C8 run. -/
def cfgC8 : Cfg :=
  { prompt := "Describe Ann."
    json_schema := schemaC8
    temperature := 1
    manual_prompt := true
    max_array_length := 10
    oracle := wrapped_generate_func baseC8 200
    stopHist := neverStop }

/-- Message validate_schema rejects schemaC8 with. -/
def c8ErrMsg : String :=
  "Invalid `type` value `tuple` in object: " ++ dumps (.obj [("type", .str "tuple")])

theorem c8_val_string : validate_schema (.obj [("type", .str "string")]) = .ok () := by
  rw [validate_schema.eq_def]
  simp [assocFind, jvalIsStr]

theorem c8_val_tuple :
    validate_schema (.obj [("type", .str "tuple")]) = .error c8ErrMsg := by
  rw [validate_schema.eq_def]
  simp [assocFind, jvalIsStr, pyStr, c8ErrMsg]

theorem c8_val_bad : validate_schema schemaC8 = .error c8ErrMsg := by
  rw [show schemaC8 = .obj [("type", .str "object"),
        ("properties", .obj [("name", .obj [("type", .str "string")]),
                             ("age", .obj [("type", .str "tuple")])])] from rfl]
  rw [validate_schema.eq_def]
  simp only [assocFind, jvalIsStr]
  simp
  rw [validateProps.eq_def]
  simp only []
  rw [c8_val_string]
  simp
  rw [validateProps.eq_def]
  simp only []
  rw [c8_val_tuple]

theorem c8_step_name :
    generate_value cfgC8 (.obj [("type", .str "string")]) (some "name") ⟨"\x7b\n", 4, 0, []⟩ =
    (.ok (), ⟨"\x7b\n    \"name\": \"Ann\"", 4, 1,
      [⟨"Describe Ann.\n\x7b\n    \"name\": \"", ⟨1, none⟩⟩]⟩) := by
  rw [generate_value.eq_def]
  simp only [pyDictGet, assocFind, jvalIsStr, applyKeyOpt, apply_key, apply_indent,
    indentSpaces, add_to_progress]
  norm_num
  rw [generate_string.eq_def]
  simp [get_next_tokens, resolvePrompt, get_prompt, cfgC8, wrapped_generate_func, baseC8,
    strEndsWith, streamScan, strContainsDQ, hasDoubleQuotePair, matchGroup, stringMatch,
    lastIdxSatisfying, firstNlIdx, pyOrQ, neverStop, add_to_progress]

theorem c8_step_age :
    generate_value cfgC8 (.obj [("type", .str "tuple")]) (some "age")
      ⟨"\x7b\n    \"name\": \"Ann\",\n", 4, 1,
        [⟨"Describe Ann.\n\x7b\n    \"name\": \"", ⟨1, none⟩⟩]⟩ =
    (.err (.valueError "Unsupported schema type: tuple"),
     ⟨"\x7b\n    \"name\": \"Ann\",\n    \"age\": ", 4, 1,
      [⟨"Describe Ann.\n\x7b\n    \"name\": \"", ⟨1, none⟩⟩]⟩) := by
  rw [generate_value.eq_def]
  simp [pyDictGet, assocFind, jvalIsStr, applyKeyOpt, apply_key, apply_indent,
    indentSpaces, add_to_progress, pyStr]

theorem c8_step_loop :
    objLoop cfgC8 [("name", .obj [("type", .str "string")]), ("age", .obj [("type", .str "tuple")])]
      ⟨"\x7b", 4, 0, []⟩ =
    (.err (.valueError "Unsupported schema type: tuple"),
     ⟨"\x7b\n    \"name\": \"Ann\",\n    \"age\": ", 4, 1,
      [⟨"Describe Ann.\n\x7b\n    \"name\": \"", ⟨1, none⟩⟩]⟩) := by
  rw [objLoop.eq_def]
  simp only [apply_newline, add_to_progress]
  simp
  rw [c8_step_name]
  simp
  rw [objLoop.eq_def]
  simp only [apply_newline, add_to_progress]
  simp
  rw [c8_step_age]

theorem c8_step_object :
    generate_object cfgC8
      (.obj [("name", .obj [("type", .str "string")]), ("age", .obj [("type", .str "tuple")])])
      ⟨"", 0, 0, []⟩ =
    (.err (.valueError "Unsupported schema type: tuple"),
     ⟨"\x7b\n    \"name\": \"Ann\",\n    \"age\": ", 4, 1,
      [⟨"Describe Ann.\n\x7b\n    \"name\": \"", ⟨1, none⟩⟩]⟩) := by
  rw [generate_object.eq_def]
  rw [show (add_to_progress "\x7b" (⟨"", 0, 0, []⟩ : St)) = (⟨"\x7b", 0, 0, []⟩ : St) from rfl]
  simp
  rw [show (increase_indent (⟨"\x7b", 0, 0, []⟩ : St)) = (⟨"\x7b", 4, 0, []⟩ : St) from rfl]
  rw [c8_step_loop]

theorem c8_step_root :
    generate_value cfgC8 schemaC8 none ⟨"", 0, 0, []⟩ =
    generate_object cfgC8 (.obj [("name", .obj [("type", .str "string")]),
                                 ("age", .obj [("type", .str "tuple")])]) ⟨"", 0, 0, []⟩ := by
  rw [generate_value.eq_def]
  simp [schemaC8, pyDictGet, assocFind, jvalIsStr, applyKeyOpt]

theorem c8_entry :
    custom_generate_reply baseC8 "Describe Ann." 1 200 (some schemaC8) true true neverStop =
      .jsonformer (jsonformer_run cfgC8) := by
  simp [custom_generate_reply, cfgC8]

/-- C8 (amended): the generation entry point never consults validate_schema;
with the plugin enabled and a schema present it runs the full Jsonformer
session unconditionally, even when validate_schema rejects that schema, so
the oracle can be invoked on a schema that fails validation. -/
theorem C8_generation_unconditional
    (base : String → ℚ → Nat → List String) (question : String)
    (temp : ℚ) (mnt : Nat) (schema : JVal) (hist : Nat → Bool)
    (manual : Bool) (e : String)
    (hbad : validate_schema schema = .error e) :
    custom_generate_reply base question temp mnt (some schema) true manual hist =
      .jsonformer (jsonformer_run
        { prompt := question
          json_schema := schema
          temperature := temp
          manual_prompt := manual
          max_array_length := 10
          oracle := wrapped_generate_func base mnt
          stopHist := hist }) := by
  simp [custom_generate_reply]

theorem C8_witness :
    validate_schema schemaC8 = .error c8ErrMsg ∧
    custom_generate_reply baseC8 "Describe Ann." 1 200 (some schemaC8) true true neverStop =
      .jsonformer (jsonformer_run cfgC8) :=
  ⟨c8_val_bad,
   C8_generation_unconditional baseC8 "Describe Ann." 1 200 schemaC8 neverStop true
     c8ErrMsg c8_val_bad⟩

/-- C8 counterexample: schemaC8 fails validation, yet the entry point runs
the session, which writes the name property and logs one oracle call before
the invalid `age` type raises; the session is not aborted before the oracle
is invoked. -/
theorem C8_counterexample :
    validate_schema schemaC8 = .error c8ErrMsg ∧
    custom_generate_reply baseC8 "Describe Ann." 1 200 (some schemaC8) true true neverStop =
      .jsonformer (.err (.valueError "Unsupported schema type: tuple"),
        ⟨"\x7b\n    \"name\": \"Ann\",\n    \"age\": ", 4, 1,
         [⟨"Describe Ann.\n\x7b\n    \"name\": \"", ⟨1, none⟩⟩]⟩) := by
  refine ⟨c8_val_bad, ?_⟩
  rw [c8_entry]
  have h0 : jsonformer_run cfgC8 = generate_value cfgC8 schemaC8 none ⟨"", 0, 0, []⟩ := rfl
  rw [h0, c8_step_root, c8_step_object]
